import Mathlib

/-!
Shallow embedding of the volume-bot execution engine: the signed request
gateway (mexc_api_client.py), the order orchestrator (trading_execution.py)
and the engine controller (trading_logic.py).

Conventions of the embedding:
* Python floats are modelled as rationals; `random.uniform(a, b)` is modelled
  as `a + (b - a) * u` for a draw `u` with `0 ≤ u ≤ 1`, and
  `random.randint(lo, hi)` as `lo + d` for a clipped draw `d`.
* Every network interaction goes through the gateway model `handleRequest`;
  its environment `attempts : Nat → HttpOutcome α` gives the outcome of the
  n-th physical HTTP attempt of that one logical call (HTTP 200 with a parsed
  body, a non-200 status, or a transport exception).
* Exceptions are modelled by `Option`/explicit branches exactly where the
  source catches them; the telegram sender (TelegramBotHandler.send_message)
  catches all its exceptions internally, so it is modelled as never raising.
* Calls to `time.sleep` are recorded in an action trace, tagged by call site.
-/

namespace VolumeBot

/-- The sites at which the engine calls time.sleep: the fixed settlement wait
(trading_execution.py line 65), the 1-second ticks of the inter-cycle wait
(trading_execution.py lines 148-151), and the exponential-backoff sleeps
inside the gateway (mexc_api_client.py lines 110 and 123). -/
inductive SleepSite where
  | settlement
  | interCycleTick
  | backoff
deriving DecidableEq

/-- Externally observable actions of the engine, in program order. -/
inductive Action where
  | fetchBalances
  | fetchBidAsk
  | createOrder (side : String) (price qty : ℚ)
  | sleep (site : SleepSite) (secs : Nat)
  | queryStatus (oid : Option String)
  | cancelOrder (oid : Option String)
  | cancelAllOrders
  | saveTrade
  | notify
  | spawnWorker
deriving DecidableEq

/-- Outcome of one physical HTTP attempt: HTTP 200 with a parsed body,
a non-200 status code, or a requests.RequestException. -/
inductive HttpOutcome (α : Type) where
  | success (body : α)
  | httpError (status : Nat)
  | transportError
deriving DecidableEq

/-- Result of one logical call to MexcApiClient._handle_request:
the returned body (`none` when the call ends by raising), the backoff delays
slept (in seconds, in order), and the client's `self.retry_count` after the
call (the counter is instance state shared between calls). -/
structure GatewayResult (α : Type) where
  response : Option α
  delays : List Nat
  retryCount : Nat
deriving DecidableEq

/-- mexc_api_client.py line 106: the retryable status codes. -/
def retryableStatus (s : Nat) : Bool :=
  s == 429 || s == 500 || s == 502 || s == 503 || s == 504

/-- MexcApiClient._handle_request, with the recursion re-indexed on
`remaining = max_retries - retry_count`; since the retry branch increments
`retry_count` by one, `remaining > 0` is exactly the source's guard
`self.retry_count < self.max_retries`, and when `remaining = 0` both a
retryable and a non-retryable failure raise immediately, as in the source.
On HTTP 200 the `finally` block resets `self.retry_count` to 0 (only the
frame that saw the 200 resets; outer frames of the recursion keep their
non-200 response and leave the counter to the inner frame's value). -/
def handleRequestAux (attempts : Nat → HttpOutcome α) : Nat → Nat → Nat → GatewayResult α
  | 0, i, rc =>
    match attempts i with
    | .success b => ⟨some b, [], 0⟩
    | .httpError _ => ⟨none, [], rc⟩
    | .transportError => ⟨none, [], rc⟩
  | r + 1, i, rc =>
    match attempts i with
    | .success b => ⟨some b, [], 0⟩
    | .httpError s =>
      if retryableStatus s then
        let res := handleRequestAux attempts r (i + 1) (rc + 1)
        ⟨res.response, 2 ^ (rc + 1) :: res.delays, res.retryCount⟩
      else ⟨none, [], rc⟩
    | .transportError =>
      let res := handleRequestAux attempts r (i + 1) (rc + 1)
      ⟨res.response, 2 ^ (rc + 1) :: res.delays, res.retryCount⟩

/-- One logical call to MexcApiClient._handle_request entered with the
instance counter `self.retry_count = rc` and `self.max_retries = maxRetries`;
`i` indexes the physical attempts in the environment. -/
def handleRequest (attempts : Nat → HttpOutcome α) (maxRetries i rc : Nat) : GatewayResult α :=
  handleRequestAux attempts (maxRetries - rc) i rc

/-- An attempt outcome the source treats as transient: a retryable status or
a transport failure. -/
def TransientOutcome : HttpOutcome α → Prop
  | .success _ => False
  | .httpError s => retryableStatus s = true
  | .transportError => True

/-- Python's round-half-to-even on rationals. -/
def roundHalfEven (x : ℚ) : ℤ :=
  let f := ⌊x⌋
  let r := x - (f : ℚ)
  if r < 1 / 2 then f
  else if 1 / 2 < r then f + 1
  else if 2 ∣ f then f else f + 1

/-- Python's round(x, 8) (trading_logic.py line 224). -/
def roundTo8 (x : ℚ) : ℚ :=
  (roundHalfEven (x * 10 ^ 8) : ℚ) / 10 ^ 8

/-- One entry of the account-info `balances` array. -/
structure AssetBalance where
  asset : String
  free : ℚ
  locked : ℚ
deriving DecidableEq

/-- MexcApiClient.get_balances (lines 142-158): per asset the dictionary
stores free + locked; a later entry for the same asset overwrites an earlier
one, as Python dict assignment does. -/
def get_balances (account : List AssetBalance) : List (String × ℚ) :=
  account.map fun a => (a.asset, a.free + a.locked)

/-- Python `dict.get(key, 0.0)` over an assignment list where the last write
wins. -/
def dictGet (entries : List (String × ℚ)) (key : String) : ℚ :=
  (entries.reverse.lookup key).getD 0

/-- MexcApiClient.get_specific_balance (lines 160-171). -/
def get_specific_balance (account : List AssetBalance) (symbol : String) : ℚ :=
  dictGet (get_balances account) symbol

/-- Snapshot of the mutable config-module values the engine reads during one
cycle. config.py ships MIN_PRICE 10, MAX_PRICE 12, MIN_INTERVAL 30,
MAX_INTERVAL 50, CANCEL_DELAY 1, MAX_RETRIES 3, MIN_USDT_BALANCE 100,
MIN_TOKEN_BALANCE 500; the execution code reads the runtime attribute
config.TRADE_AMOUNT for the per-order quantity (config.py itself declares
the initial amount under the name TRADE_AMOUNT_USDT). -/
structure Settings where
  minPrice : ℚ
  maxPrice : ℚ
  tradeAmount : ℚ
  minUsdtBalance : ℚ
  minTokenBalance : ℚ
  minInterval : Nat
  maxInterval : Nat
  cancelDelay : Nat
  maxRetries : Nat
  quoteCurrency : String
  tokenName : String

/-- The values shipped in config.py. -/
def defaultConfig : Settings :=
  ⟨10, 12, 10, 100, 500, 30, 50, 1, 3, "USDT", "CREPE"⟩

/-- Output of one internal step: its value, the actions it performed, and the
gateway's shared retry counter afterwards. -/
structure StepOut (α : Type) where
  val : α
  trace : List Action
  rc : Nat

/-- The backoff sleeps a gateway call performed, as trace actions. -/
def backoffSleeps (delays : List Nat) : List Action :=
  delays.map (Action.sleep .backoff)

/-- TradingBot._check_balances (trading_logic.py lines 166-192): two separate
account fetches (quote then base); any exception is caught and yields False,
as does either balance being below its floor. -/
def check_balances (cfg : Settings)
    (balQuoteE balTokenE : Nat → HttpOutcome (List AssetBalance)) (rc : Nat) :
    StepOut Bool :=
  let r1 := handleRequest balQuoteE cfg.maxRetries 0 rc
  let t1 := Action.fetchBalances :: backoffSleeps r1.delays
  match r1.response with
  | none => ⟨false, t1, r1.retryCount⟩
  | some acct1 =>
    if get_specific_balance acct1 cfg.quoteCurrency < cfg.minUsdtBalance then
      ⟨false, t1, r1.retryCount⟩
    else
      let r2 := handleRequest balTokenE cfg.maxRetries 0 r1.retryCount
      let t2 := t1 ++ Action.fetchBalances :: backoffSleeps r2.delays
      match r2.response with
      | none => ⟨false, t2, r2.retryCount⟩
      | some acct2 =>
        if get_specific_balance acct2 cfg.tokenName < cfg.minTokenBalance then
          ⟨false, t2, r2.retryCount⟩
        else ⟨true, t2, r2.retryCount⟩

/-- TradingBot._decide_price (trading_logic.py lines 194-232). On a failed
quote fetch the except branch returns the unrounded, unclamped midpoint of
the configured band. -/
def decide_price (cfg : Settings) (depthE : Nat → HttpOutcome (ℚ × ℚ))
    (u1 u2 : ℚ) (rc : Nat) : StepOut ℚ :=
  let r := handleRequest depthE cfg.maxRetries 0 rc
  let t := Action.fetchBidAsk :: backoffSleeps r.delays
  match r.response with
  | none => ⟨(cfg.minPrice + cfg.maxPrice) / 2, t, r.retryCount⟩
  | some (bid1, ask1) =>
    let spread := ask1 - bid1
    let price :=
      if cfg.minPrice ≤ bid1 ∧ bid1 ≤ cfg.maxPrice ∧
          cfg.minPrice ≤ ask1 ∧ ask1 ≤ cfg.maxPrice then
        bid1 + (ask1 - bid1) * u1
      else
        let percent := 3 / 10 + (7 / 10 - 3 / 10) * u2
        max cfg.minPrice (min cfg.maxPrice (bid1 + spread * percent))
    ⟨roundTo8 price, t, r.retryCount⟩

/-- Parsed order-status response body. -/
structure OrderStatusResp where
  status : String
  executedQty : ℚ
  price : ℚ
deriving DecidableEq

/-- Reconciliation outcome of one leg: fully-filled flag, executed quantity,
price (the tuple returned by check_and_cancel_order). -/
structure LegResult where
  filled : Bool
  qty : ℚ
  price : ℚ
deriving DecidableEq

/-- check_and_cancel_order (trading_execution.py lines 160-202). A FILLED
status records the executed quantity; otherwise a cancel is issued and the
partial quantity recorded. If the status query raises, or the cancel inside
the try raises, the except branch issues a (swallowed) cancel attempt and
returns (False, 0, 0). -/
def check_and_cancel_order (maxRetries : Nat)
    (statusE : Nat → HttpOutcome OrderStatusResp)
    (cancelE cancel2E : Nat → HttpOutcome Unit)
    (oid : Option String) (rc : Nat) : StepOut LegResult :=
  let s := handleRequest statusE maxRetries 0 rc
  let t0 := Action.queryStatus oid :: backoffSleeps s.delays
  match s.response with
  | some st =>
    if st.status == "FILLED" then
      ⟨⟨true, st.executedQty, st.price⟩, t0, s.retryCount⟩
    else
      let c := handleRequest cancelE maxRetries 0 s.retryCount
      let t1 := t0 ++ Action.cancelOrder oid :: backoffSleeps c.delays
      match c.response with
      | some _ => ⟨⟨false, st.executedQty, st.price⟩, t1, c.retryCount⟩
      | none =>
        let c2 := handleRequest cancel2E maxRetries 0 c.retryCount
        ⟨⟨false, 0, 0⟩, t1 ++ Action.cancelOrder oid :: backoffSleeps c2.delays, c2.retryCount⟩
  | none =>
    let c := handleRequest cancelE maxRetries 0 s.retryCount
    ⟨⟨false, 0, 0⟩, t0 ++ Action.cancelOrder oid :: backoffSleeps c.delays, c.retryCount⟩

/-- One completed-cycle record as passed to DBManager.save_trade
(trading_execution.py lines 85-95). -/
structure TradeRecord where
  price : ℚ
  quantity : ℚ
  filledQuantity : ℚ
  filledPercent : ℚ
  buyOrderId : Option String
  sellOrderId : Option String
  buyFilled : Bool
  sellFilled : Bool
deriving DecidableEq

/-- The TradingBot state relevant to the claims: the running flag and the
trade counter. -/
structure BotState where
  running : Bool
  tradeCount : Nat
deriving DecidableEq

/-- Environment of one cycle: for every API call of execute_trade, the
outcomes of its physical HTTP attempts, plus the two uniform draws of
_decide_price and the save_trade outcome. The order-submission body carries
`buy_result.get('orderId')`, hence an `Option String`. -/
structure CycleEnv where
  balQuoteE : Nat → HttpOutcome (List AssetBalance)
  balTokenE : Nat → HttpOutcome (List AssetBalance)
  depthE : Nat → HttpOutcome (ℚ × ℚ)
  u1 : ℚ
  u2 : ℚ
  buyOrderE : Nat → HttpOutcome (Option String)
  sellOrderE : Nat → HttpOutcome (Option String)
  buyStatusE : Nat → HttpOutcome OrderStatusResp
  sellStatusE : Nat → HttpOutcome OrderStatusResp
  buyCancelE : Nat → HttpOutcome Unit
  buyCancel2E : Nat → HttpOutcome Unit
  sellCancelE : Nat → HttpOutcome Unit
  sellCancel2E : Nat → HttpOutcome Unit
  failCancelBuyE : Nat → HttpOutcome Unit
  failCancelSellE : Nat → HttpOutcome Unit
  saveOk : Bool

/-- Result of one execute_trade call. `saved` is the record passed to
save_trade when reconciliation was reached, `legs` the two reconciliation
outcomes, and `opened` the order ids returned by successful submissions
(observables of the run; the source keeps them in the locals buy_order_id /
sell_order_id and the per-leg tuples). -/
structure CycleResult where
  state : BotState
  ok : Bool
  trace : List Action
  saved : Option TradeRecord
  legs : Option (LegResult × LegResult)
  opened : List String
  rc : Nat

/-- Python truthiness of an optional order id: None and the empty string are
falsy (`if buy_order_id:`). -/
def truthyId : Option String → Bool
  | none => false
  | some s => !(s == "")

/-- The ids the exchange acknowledged for a submission response body. -/
def openedIds : Option (Option String) → List String
  | some (some s) => [s]
  | _ => []

/-- execute_trade (trading_execution.py lines 15-126). The balance guard
failure notifies, clears the running flag and returns False; an exception
from either order submission reaches the cycle-boundary handler, which
best-effort cancels the known open orders inside one try (the buy first),
notifies and returns False. The success path sleeps CANCEL_DELAY, reconciles
both legs, saves the record and returns True. _check_balances, _decide_price,
check_and_cancel_order and save_trade catch their own exceptions, and the
telegram sender never raises, so no other step can abort the cycle. -/
def execute_trade (cfg : Settings) (env : CycleEnv) (st : BotState) (rc : Nat) :
    CycleResult :=
  let cb := check_balances cfg env.balQuoteE env.balTokenE rc
  if cb.val = false then
    ⟨⟨false, st.tradeCount⟩, false, cb.trace ++ [Action.notify], none, none, [], cb.rc⟩
  else
    let dp := decide_price cfg env.depthE env.u1 env.u2 cb.rc
    let price := dp.val
    let rBuy := handleRequest env.buyOrderE cfg.maxRetries 0 dp.rc
    let tBuy := Action.createOrder "BUY" price cfg.tradeAmount :: backoffSleeps rBuy.delays
    match rBuy.response with
    | none =>
      ⟨st, false, cb.trace ++ dp.trace ++ tBuy ++ [Action.notify], none, none, [],
        rBuy.retryCount⟩
    | some buyId =>
      let rSell := handleRequest env.sellOrderE cfg.maxRetries 0 rBuy.retryCount
      let tSell := Action.createOrder "SELL" price cfg.tradeAmount :: backoffSleeps rSell.delays
      match rSell.response with
      | none =>
        let cTr :=
          if truthyId buyId then
            let c := handleRequest env.failCancelBuyE cfg.maxRetries 0 rSell.retryCount
            (Action.cancelOrder buyId :: backoffSleeps c.delays, c.retryCount)
          else ([], rSell.retryCount)
        ⟨st, false, cb.trace ++ dp.trace ++ tBuy ++ tSell ++ cTr.1 ++ [Action.notify],
          none, none, openedIds (some buyId), cTr.2⟩
      | some sellId =>
        let bRes := check_and_cancel_order cfg.maxRetries env.buyStatusE env.buyCancelE
          env.buyCancel2E buyId rSell.retryCount
        let sRes := check_and_cancel_order cfg.maxRetries env.sellStatusE env.sellCancelE
          env.sellCancel2E sellId bRes.rc
        let filledQ := min bRes.val.qty sRes.val.qty
        let rec0 : TradeRecord :=
          { price := price
            quantity := cfg.tradeAmount
            filledQuantity := filledQ
            filledPercent :=
              if cfg.tradeAmount > 0 then filledQ / cfg.tradeAmount * 100 else 0
            buyOrderId := buyId
            sellOrderId := sellId
            buyFilled := bRes.val.filled
            sellFilled := sRes.val.filled }
        ⟨⟨st.running, st.tradeCount + 1⟩, true,
          cb.trace ++ dp.trace ++ tBuy ++ tSell ++
            [Action.sleep .settlement cfg.cancelDelay] ++ bRes.trace ++ sRes.trace ++
            [Action.saveTrade, Action.notify],
          some rec0, some (bRes.val, sRes.val),
          openedIds (some buyId) ++ openedIds (some sellId), sRes.rc⟩

/-- The inner wait of trading_loop from check index `i` with `w` ticks left:
before each 1-second sleep the running flag is re-read (`flag i` is the value
the i-th read observes); a false read breaks out before sleeping. Returns the
number of 1-second sleeps performed. -/
def ticksFrom (flag : Nat → Bool) : Nat → Nat → Nat
  | _, 0 => 0
  | i, w + 1 => if flag i then ticksFrom flag (i + 1) w + 1 else 0

/-- trading_loop lines 147-151: the interruptible inter-cycle wait. -/
def interCycleTicks (flag : Nat → Bool) (waitTime : Nat) : Nat :=
  ticksFrom flag 0 waitTime

/-- random.randint(MIN_INTERVAL, MAX_INTERVAL) modelled by a clipped draw. -/
def waitTimeOf (cfg : Settings) (draw : Nat) : Nat :=
  cfg.minInterval + min draw (cfg.maxInterval - cfg.minInterval)

/-- trading_loop (trading_execution.py lines 128-158), fueled. `envs n` is
the environment of the n-th cycle; `flags n` gives the successive reads of
the running flag during the n-th inter-cycle wait (the read after the wait's
last tick doubles as the next while-condition read); `draws n` is the n-th
interval draw. execute_trade never raises in this model (every raising call
sits inside its try), so the except-branch 5-second sleep is not reached.
Returns final state, final retry counter, and the worker's trace. -/
def trading_loop (cfg : Settings) (envs : Nat → CycleEnv) (flags : Nat → Nat → Bool)
    (draws : Nat → Nat) : Nat → Nat → BotState → Nat → BotState × Nat × List Action
  | 0, _, st, rc => (st, rc, [])
  | fuel + 1, n, st, rc =>
    if st.running then
      let c := execute_trade cfg (envs n) st rc
      if c.state.running then
        let w := waitTimeOf cfg (draws n)
        let t := interCycleTicks (flags n) w
        let rest := trading_loop cfg envs flags draws fuel (n + 1) ⟨flags n t, c.state.tradeCount⟩ c.rc
        (rest.1, rest.2.1,
          c.trace ++ List.replicate t (Action.sleep .interCycleTick 1) ++ rest.2.2)
      else
        let rest := trading_loop cfg envs flags draws fuel (n + 1) c.state c.rc
        (rest.1, rest.2.1, c.trace ++ rest.2.2)
    else (st, rc, [])

/-- Result of a controller call. -/
structure CtrlResult where
  state : BotState
  ok : Bool
  trace : List Action
  rc : Nat
deriving DecidableEq

namespace TradingBot

/-- TradingBot.start (trading_logic.py lines 42-73): under the lock, a no-op
returning False while running; otherwise re-checks the balance floors and on
success sets the flag and spawns the worker thread. -/
def start (cfg : Settings) (balQuoteE balTokenE : Nat → HttpOutcome (List AssetBalance))
    (st : BotState) (rc : Nat) : CtrlResult :=
  if st.running then ⟨st, false, [], rc⟩
  else
    let cb := check_balances cfg balQuoteE balTokenE rc
    if cb.val = false then ⟨st, false, cb.trace ++ [Action.notify], cb.rc⟩
    else ⟨⟨true, st.tradeCount⟩, true, cb.trace ++ [Action.spawnWorker, Action.notify], cb.rc⟩

/-- TradingBot.stop (trading_logic.py lines 75-102): under the lock, a no-op
returning False while stopped; otherwise clears the flag, issues a cancel-all
whose exception is caught and logged, notifies and returns True. -/
def stop (cfg : Settings) (cancelAllE : Nat → HttpOutcome Unit)
    (st : BotState) (rc : Nat) : CtrlResult :=
  if st.running then
    let r := handleRequest cancelAllE cfg.maxRetries 0 rc
    ⟨⟨false, st.tradeCount⟩, true,
      Action.cancelAllOrders :: backoffSleeps r.delays ++ [Action.notify], r.retryCount⟩
  else ⟨st, false, [], rc⟩

end TradingBot

/-! Concrete environments used to evaluate the model on explicit inputs. -/

/-- A call whose every physical attempt comes back HTTP 500. -/
def env500 : Nat → HttpOutcome Unit := fun _ => .httpError 500

/-- An account holding ample USDT and CREPE (free + locked). -/
def okAccount : List AssetBalance :=
  [⟨"USDT", 900, 100⟩, ⟨"CREPE", 600, 400⟩]

/-- A cycle in which every exchange call succeeds on its first attempt:
quote 11/11.02 inside the default band, both orders acknowledged, the buy
fully filled, the sell partially filled at 6 of 10. -/
def envBase : CycleEnv where
  balQuoteE := fun _ => .success okAccount
  balTokenE := fun _ => .success okAccount
  depthE := fun _ => .success (11, 551 / 50)
  u1 := 0
  u2 := 0
  buyOrderE := fun _ => .success (some "B1")
  sellOrderE := fun _ => .success (some "S1")
  buyStatusE := fun _ => .success ⟨"FILLED", 10, 11⟩
  sellStatusE := fun _ => .success ⟨"PARTIALLY_FILLED", 6, 11⟩
  buyCancelE := fun _ => .success ()
  buyCancel2E := fun _ => .success ()
  sellCancelE := fun _ => .success ()
  sellCancel2E := fun _ => .success ()
  failCancelBuyE := fun _ => .success ()
  failCancelSellE := fun _ => .success ()
  saveOk := true

/-- As envBase, but the account fetch dies on transport errors, so the
balance guard reports failure. -/
def envGuardFail : CycleEnv :=
  { envBase with balQuoteE := fun _ => .transportError }

/-- As envBase, but the buy submission fails persistently: a mid-cycle,
non-guard failure. -/
def envBuyFail : CycleEnv :=
  { envBase with buyOrderE := fun _ => .transportError }

/-- As envBase, but the first quote-fetch attempt hits a 500, forcing one
2-second backoff sleep inside the cycle. -/
def envBackoff : CycleEnv :=
  { envBase with depthE := fun j => if j = 0 then .httpError 500 else .success (11, 551 / 50) }

/-- A quote whose bid and ask sit inside the default band but a ninth of a
decimal above the 8-decimal grid. -/
def depthC3 : Nat → HttpOutcome (ℚ × ℚ) :=
  fun _ => .success (10 + 1 / 10 ^ 9, 10 + 2 / 10 ^ 9)

/-- A quote fetch that fails persistently. -/
def depthFail : Nat → HttpOutcome (ℚ × ℚ) := fun _ => .transportError

/-- A cancel-all request that fails persistently. -/
def cancelFailE : Nat → HttpOutcome Unit := fun _ => .transportError

/-- A status query that fails persistently. -/
def statusFailE : Nat → HttpOutcome OrderStatusResp := fun _ => .transportError

/-- A cancel request that succeeds immediately. -/
def cancelOkE : Nat → HttpOutcome Unit := fun _ => .success ()

/-- The backoff delays of a run that enters with counter rc and retries r
times: 2^(rc+1), 2^(rc+2), .... -/
def expDelays (rc : Nat) : Nat → List Nat
  | 0 => []
  | r + 1 => 2 ^ (rc + 1) :: expDelays (rc + 1) r

/-! Helper lemmas. -/

theorem expDelays_eq_map (r : Nat) : ∀ rc,
    expDelays rc r = (List.range r).map (fun k => 2 ^ (rc + 1 + k)) := by
  induction r with
  | zero => intro rc; simp [expDelays]
  | succ r ih =>
    intro rc
    rw [expDelays, ih (rc + 1), List.range_succ_eq_map, List.map_cons, List.map_map]
    refine congrArg₂ _ (by norm_num) (List.map_congr_left fun k _ => ?_)
    simp [Function.comp]
    ring_nf

theorem expDelays_chain (r : Nat) : ∀ rc, List.Chain' (· < ·) (expDelays rc r) := by
  induction r with
  | zero => intro rc; simp [expDelays]
  | succ r ih =>
    intro rc
    cases r with
    | zero => simp [expDelays]
    | succ r2 =>
      rw [expDelays]
      rw [show expDelays (rc + 1) (r2 + 1) = 2 ^ (rc + 2) :: expDelays (rc + 2) r2 from rfl]
      refine List.chain'_cons.mpr ⟨?_, ?_⟩
      · exact Nat.pow_lt_pow_right one_lt_two (by omega)
      · exact ih (rc + 1)

theorem handleRequestAux_persistent (attempts : Nat → HttpOutcome α)
    (h : ∀ j, TransientOutcome (attempts j)) (r : Nat) :
    ∀ i rc, handleRequestAux attempts r i rc = ⟨none, expDelays rc r, rc + r⟩ := by
  induction r with
  | zero =>
    intro i rc
    have hj := h i
    cases ha : attempts i with
    | success b => rw [ha] at hj; exact hj.elim
    | httpError s => simp [handleRequestAux, ha, expDelays]
    | transportError => simp [handleRequestAux, ha, expDelays]
  | succ r ih =>
    intro i rc
    have hj := h i
    cases ha : attempts i with
    | success b => rw [ha] at hj; exact hj.elim
    | httpError s =>
      rw [ha] at hj
      simp only [TransientOutcome] at hj
      simp only [handleRequestAux, ha, hj, if_true, ih (i + 1) (rc + 1), expDelays,
        GatewayResult.mk.injEq, true_and] <;> omega
    | transportError =>
      simp only [handleRequestAux, ha, ih (i + 1) (rc + 1), expDelays,
        GatewayResult.mk.injEq, true_and] <;> omega

theorem handleRequest_success {α : Type} (attempts : Nat → HttpOutcome α)
    (maxRetries i rc : Nat) (b : α) (ha : attempts i = .success b) :
    handleRequest attempts maxRetries i rc = ⟨some b, [], 0⟩ := by
  unfold handleRequest
  cases maxRetries - rc <;> simp [handleRequestAux, ha]

theorem lookup_append_of_keys_ne {l1 l2 : List (String × ℚ)} {k : String}
    (h : ∀ p ∈ l1, p.1 ≠ k) : (l1 ++ l2).lookup k = l2.lookup k := by
  induction l1 with
  | nil => rfl
  | cons p l ih =>
    have hp : (k == p.1) = false :=
      beq_eq_false_iff_ne.mpr (Ne.symm (h p (by simp)))
    simp only [List.cons_append, List.lookup, hp]
    exact ih fun q hq => h q (by simp [hq])

theorem count_cancelAll_backoffSleeps (ds : List Nat) :
    (backoffSleeps ds).count Action.cancelAllOrders = 0 := by
  rw [List.count_eq_zero]
  simp [backoffSleeps]

theorem mem_backoffSleeps {a : Action} {ds : List Nat} (h : a ∈ backoffSleeps ds) :
    ∃ d, a = Action.sleep .backoff d := by
  rw [backoffSleeps, List.mem_map] at h
  obtain ⟨d, _, rfl⟩ := h
  exact ⟨d, rfl⟩

theorem mem_check_balances_trace {cfg : Settings}
    {bq bt : Nat → HttpOutcome (List AssetBalance)} {rc : Nat} {a : Action}
    (h : a ∈ (check_balances cfg bq bt rc).trace) :
    a = Action.fetchBalances ∨ ∃ d, a = Action.sleep .backoff d := by
  cases hr1 : (handleRequest bq cfg.maxRetries 0 rc).response with
  | none =>
    simp only [check_balances, hr1] at h
    rcases List.mem_cons.mp h with h | h
    · exact Or.inl h
    · exact Or.inr (mem_backoffSleeps h)
  | some acct1 =>
    simp only [check_balances, hr1] at h
    by_cases hc1 : get_specific_balance acct1 cfg.quoteCurrency < cfg.minUsdtBalance
    · rw [if_pos hc1] at h
      rcases List.mem_cons.mp h with h | h
      · exact Or.inl h
      · exact Or.inr (mem_backoffSleeps h)
    · rw [if_neg hc1] at h
      cases hr2 : (handleRequest bt cfg.maxRetries 0
          (handleRequest bq cfg.maxRetries 0 rc).retryCount).response with
      | none =>
        simp only [hr2] at h
        rcases List.mem_append.mp h with h | h
        · rcases List.mem_cons.mp h with h | h
          · exact Or.inl h
          · exact Or.inr (mem_backoffSleeps h)
        · rcases List.mem_cons.mp h with h | h
          · exact Or.inl h
          · exact Or.inr (mem_backoffSleeps h)
      | some acct2 =>
        simp only [hr2] at h
        by_cases hc2 : get_specific_balance acct2 cfg.tokenName < cfg.minTokenBalance
        · rw [if_pos hc2] at h
          rcases List.mem_append.mp h with h | h
          · rcases List.mem_cons.mp h with h | h
            · exact Or.inl h
            · exact Or.inr (mem_backoffSleeps h)
          · rcases List.mem_cons.mp h with h | h
            · exact Or.inl h
            · exact Or.inr (mem_backoffSleeps h)
        · rw [if_neg hc2] at h
          rcases List.mem_append.mp h with h | h
          · rcases List.mem_cons.mp h with h | h
            · exact Or.inl h
            · exact Or.inr (mem_backoffSleeps h)
          · rcases List.mem_cons.mp h with h | h
            · exact Or.inl h
            · exact Or.inr (mem_backoffSleeps h)

theorem mem_decide_price_trace {cfg : Settings} {depthE : Nat → HttpOutcome (ℚ × ℚ)}
    {u1 u2 : ℚ} {rc : Nat} {a : Action}
    (h : a ∈ (decide_price cfg depthE u1 u2 rc).trace) :
    a = Action.fetchBidAsk ∨ ∃ d, a = Action.sleep .backoff d := by
  cases hr : (handleRequest depthE cfg.maxRetries 0 rc).response with
  | none =>
    simp only [decide_price, hr] at h
    rcases List.mem_cons.mp h with h | h
    · exact Or.inl h
    · exact Or.inr (mem_backoffSleeps h)
  | some q =>
    obtain ⟨bid1, ask1⟩ := q
    simp only [decide_price, hr] at h
    rcases List.mem_cons.mp h with h | h
    · exact Or.inl h
    · exact Or.inr (mem_backoffSleeps h)

theorem mem_cco_trace {maxRetries : Nat} {statusE : Nat → HttpOutcome OrderStatusResp}
    {cancelE cancel2E : Nat → HttpOutcome Unit} {oid : Option String} {rc : Nat} {a : Action}
    (h : a ∈ (check_and_cancel_order maxRetries statusE cancelE cancel2E oid rc).trace) :
    a = Action.queryStatus oid ∨ a = Action.cancelOrder oid ∨
      ∃ d, a = Action.sleep .backoff d := by
  cases hs : (handleRequest statusE maxRetries 0 rc).response with
  | none =>
    simp only [check_and_cancel_order, hs] at h
    rcases List.mem_append.mp h with h | h
    · rcases List.mem_cons.mp h with h | h
      · exact Or.inl h
      · exact Or.inr (Or.inr (mem_backoffSleeps h))
    · rcases List.mem_cons.mp h with h | h
      · exact Or.inr (Or.inl h)
      · exact Or.inr (Or.inr (mem_backoffSleeps h))
  | some st =>
    simp only [check_and_cancel_order, hs] at h
    by_cases hf : (st.status == "FILLED") = true
    · rw [if_pos hf] at h
      rcases List.mem_cons.mp h with h | h
      · exact Or.inl h
      · exact Or.inr (Or.inr (mem_backoffSleeps h))
    · rw [if_neg hf] at h
      cases hc : (handleRequest cancelE maxRetries 0
          (handleRequest statusE maxRetries 0 rc).retryCount).response with
      | some u =>
        simp only [hc] at h
        rcases List.mem_append.mp h with h | h
        · rcases List.mem_cons.mp h with h | h
          · exact Or.inl h
          · exact Or.inr (Or.inr (mem_backoffSleeps h))
        · rcases List.mem_cons.mp h with h | h
          · exact Or.inr (Or.inl h)
          · exact Or.inr (Or.inr (mem_backoffSleeps h))
      | none =>
        simp only [hc] at h
        rcases List.mem_append.mp h with h | h
        · rcases List.mem_append.mp h with h | h
          · rcases List.mem_cons.mp h with h | h
            · exact Or.inl h
            · exact Or.inr (Or.inr (mem_backoffSleeps h))
          · rcases List.mem_cons.mp h with h | h
            · exact Or.inr (Or.inl h)
            · exact Or.inr (Or.inr (mem_backoffSleeps h))
        · rcases List.mem_cons.mp h with h | h
          · exact Or.inr (Or.inl h)
          · exact Or.inr (Or.inr (mem_backoffSleeps h))

theorem roundHalfEven_bounds (y : ℚ) :
    y - 1 / 2 ≤ (roundHalfEven y : ℚ) ∧ (roundHalfEven y : ℚ) ≤ y + 1 / 2 := by
  have h1 : (⌊y⌋ : ℚ) ≤ y := Int.floor_le y
  have h2 : y < ⌊y⌋ + 1 := Int.lt_floor_add_one y
  simp only [roundHalfEven]
  split_ifs with hlt hgt hdvd <;> push_cast <;> constructor <;> linarith

theorem roundTo8_bounds (x : ℚ) :
    x - 1 / (2 * 10 ^ 8) ≤ roundTo8 x ∧ roundTo8 x ≤ x + 1 / (2 * 10 ^ 8) := by
  have h := roundHalfEven_bounds (x * 10 ^ 8)
  unfold roundTo8
  constructor
  · rw [le_div_iff (by norm_num : (0 : ℚ) < 10 ^ 8)]
    have hq : (x - 1 / (2 * 10 ^ 8)) * 10 ^ 8 = x * 10 ^ 8 - 1 / 2 := by ring
    rw [hq]
    exact h.1
  · rw [div_le_iff (by norm_num : (0 : ℚ) < 10 ^ 8)]
    have hq : (x + 1 / (2 * 10 ^ 8)) * 10 ^ 8 = x * 10 ^ 8 + 1 / 2 := by ring
    rw [hq]
    exact h.2

theorem decide_price_some (cfg : Settings) (depthE : Nat → HttpOutcome (ℚ × ℚ))
    (u1 u2 : ℚ) (rc : Nat) (bid ask : ℚ)
    (hresp : (handleRequest depthE cfg.maxRetries 0 rc).response = some (bid, ask)) :
    (decide_price cfg depthE u1 u2 rc).val =
      if cfg.minPrice ≤ bid ∧ bid ≤ cfg.maxPrice ∧ cfg.minPrice ≤ ask ∧ ask ≤ cfg.maxPrice then
        roundTo8 (bid + (ask - bid) * u1)
      else
        roundTo8 (max cfg.minPrice
          (min cfg.maxPrice (bid + (ask - bid) * (3 / 10 + (7 / 10 - 3 / 10) * u2)))) := by
  simp only [decide_price, hresp]
  rw [apply_ite roundTo8]

theorem decide_price_none (cfg : Settings) (depthE : Nat → HttpOutcome (ℚ × ℚ))
    (u1 u2 : ℚ) (rc : Nat)
    (hresp : (handleRequest depthE cfg.maxRetries 0 rc).response = none) :
    (decide_price cfg depthE u1 u2 rc).val = (cfg.minPrice + cfg.maxPrice) / 2 := by
  simp only [decide_price, hresp]

theorem handleRequestAux_some_inv {α : Type} (attempts : Nat → HttpOutcome α) (r : Nat) :
    ∀ i rc b, (handleRequestAux attempts r i rc).response = some b →
      ∃ j, attempts j = .success b := by
  induction r with
  | zero =>
    intro i rc b h
    cases ha : attempts i <;> simp [handleRequestAux, ha] at h
    exact ⟨i, by rw [ha, h]⟩
  | succ r ih =>
    intro i rc b h
    cases ha : attempts i with
    | success c =>
      simp [handleRequestAux, ha] at h
      exact ⟨i, by rw [ha, h]⟩
    | httpError s =>
      by_cases hs : retryableStatus s = true
      · simp only [handleRequestAux, ha, hs, if_true] at h
        exact ih (i + 1) (rc + 1) b h
      · simp [handleRequestAux, ha, hs] at h
    | transportError =>
      simp only [handleRequestAux, ha] at h
      exact ih (i + 1) (rc + 1) b h

theorem handleRequest_some_inv {α : Type} {attempts : Nat → HttpOutcome α}
    {maxRetries i rc : Nat} {b : α}
    (h : (handleRequest attempts maxRetries i rc).response = some b) :
    ∃ j, attempts j = .success b :=
  handleRequestAux_some_inv attempts (maxRetries - rc) i rc b h

theorem execute_trade_guard_false (cfg : Settings) (env : CycleEnv) (st : BotState) (rc : Nat)
    (hcb : (check_balances cfg env.balQuoteE env.balTokenE rc).val = false) :
    execute_trade cfg env st rc =
      ⟨⟨false, st.tradeCount⟩, false,
        (check_balances cfg env.balQuoteE env.balTokenE rc).trace ++ [Action.notify],
        none, none, [], (check_balances cfg env.balQuoteE env.balTokenE rc).rc⟩ := by
  simp only [execute_trade, hcb, if_pos]

theorem execute_trade_buy_fail (cfg : Settings) (env : CycleEnv) (st : BotState) (rc : Nat)
    (hcb : (check_balances cfg env.balQuoteE env.balTokenE rc).val = true)
    {dp : StepOut ℚ}
    (hdp : decide_price cfg env.depthE env.u1 env.u2
      (check_balances cfg env.balQuoteE env.balTokenE rc).rc = dp)
    {rBuy : GatewayResult (Option String)}
    (hrb : handleRequest env.buyOrderE cfg.maxRetries 0 dp.rc = rBuy)
    (hbuy : rBuy.response = none) :
    execute_trade cfg env st rc =
      ⟨st, false,
        (check_balances cfg env.balQuoteE env.balTokenE rc).trace ++ dp.trace ++
          (Action.createOrder "BUY" dp.val cfg.tradeAmount :: backoffSleeps rBuy.delays) ++
          [Action.notify],
        none, none, [], rBuy.retryCount⟩ := by
  subst hdp
  subst hrb
  simp only [execute_trade, hcb, hbuy]
  simp

theorem execute_trade_sell_fail (cfg : Settings) (env : CycleEnv) (st : BotState) (rc : Nat)
    (hcb : (check_balances cfg env.balQuoteE env.balTokenE rc).val = true)
    {dp : StepOut ℚ}
    (hdp : decide_price cfg env.depthE env.u1 env.u2
      (check_balances cfg env.balQuoteE env.balTokenE rc).rc = dp)
    {rBuy : GatewayResult (Option String)}
    (hrb : handleRequest env.buyOrderE cfg.maxRetries 0 dp.rc = rBuy)
    {buyId : Option String} (hbuy : rBuy.response = some buyId)
    {rSell : GatewayResult (Option String)}
    (hrs : handleRequest env.sellOrderE cfg.maxRetries 0 rBuy.retryCount = rSell)
    (hsell : rSell.response = none) :
    execute_trade cfg env st rc =
      ⟨st, false,
        (check_balances cfg env.balQuoteE env.balTokenE rc).trace ++ dp.trace ++
          (Action.createOrder "BUY" dp.val cfg.tradeAmount :: backoffSleeps rBuy.delays) ++
          (Action.createOrder "SELL" dp.val cfg.tradeAmount :: backoffSleeps rSell.delays) ++
          (if truthyId buyId then
            Action.cancelOrder buyId :: backoffSleeps
              (handleRequest env.failCancelBuyE cfg.maxRetries 0 rSell.retryCount).delays
          else []) ++ [Action.notify],
        none, none, openedIds (some buyId),
        if truthyId buyId then
          (handleRequest env.failCancelBuyE cfg.maxRetries 0 rSell.retryCount).retryCount
        else rSell.retryCount⟩ := by
  subst hdp
  subst hrb
  subst hrs
  by_cases htr : truthyId buyId = true
  · simp only [execute_trade, hcb, hbuy, hsell, htr]
    simp
  · rw [Bool.not_eq_true] at htr
    simp only [execute_trade, hcb, hbuy, hsell, htr]
    simp

theorem execute_trade_success_eq (cfg : Settings) (env : CycleEnv) (st : BotState) (rc : Nat)
    (hcb : (check_balances cfg env.balQuoteE env.balTokenE rc).val = true)
    {dp : StepOut ℚ}
    (hdp : decide_price cfg env.depthE env.u1 env.u2
      (check_balances cfg env.balQuoteE env.balTokenE rc).rc = dp)
    {rBuy : GatewayResult (Option String)}
    (hrb : handleRequest env.buyOrderE cfg.maxRetries 0 dp.rc = rBuy)
    {buyId : Option String} (hbuy : rBuy.response = some buyId)
    {rSell : GatewayResult (Option String)}
    (hrs : handleRequest env.sellOrderE cfg.maxRetries 0 rBuy.retryCount = rSell)
    {sellId : Option String} (hsell : rSell.response = some sellId)
    {bRes : StepOut LegResult}
    (hbr : check_and_cancel_order cfg.maxRetries env.buyStatusE env.buyCancelE env.buyCancel2E
      buyId rSell.retryCount = bRes)
    {sRes : StepOut LegResult}
    (hsr : check_and_cancel_order cfg.maxRetries env.sellStatusE env.sellCancelE env.sellCancel2E
      sellId bRes.rc = sRes) :
    execute_trade cfg env st rc =
      ⟨⟨st.running, st.tradeCount + 1⟩, true,
        (check_balances cfg env.balQuoteE env.balTokenE rc).trace ++ dp.trace ++
          (Action.createOrder "BUY" dp.val cfg.tradeAmount :: backoffSleeps rBuy.delays) ++
          (Action.createOrder "SELL" dp.val cfg.tradeAmount :: backoffSleeps rSell.delays) ++
          [Action.sleep .settlement cfg.cancelDelay] ++ bRes.trace ++ sRes.trace ++
          [Action.saveTrade, Action.notify],
        some
          { price := dp.val
            quantity := cfg.tradeAmount
            filledQuantity := min bRes.val.qty sRes.val.qty
            filledPercent :=
              if cfg.tradeAmount > 0 then min bRes.val.qty sRes.val.qty / cfg.tradeAmount * 100
              else 0
            buyOrderId := buyId
            sellOrderId := sellId
            buyFilled := bRes.val.filled
            sellFilled := sRes.val.filled },
        some (bRes.val, sRes.val),
        openedIds (some buyId) ++ openedIds (some sellId), sRes.rc⟩ := by
  subst hdp
  subst hrb
  subst hrs
  subst hbr
  subst hsr
  simp only [execute_trade, hcb, hbuy, hsell]
  simp

/-- In a stopped state the worker loop returns immediately. -/
theorem trading_loop_stopped (cfg : Settings) (envs : Nat → CycleEnv)
    (flags : Nat → Nat → Bool) (draws : Nat → Nat) (fuel n : Nat) (st : BotState) (rc : Nat)
    (h : st.running = false) :
    trading_loop cfg envs flags draws fuel n st rc = (st, rc, []) := by
  cases fuel <;> simp [trading_loop, h]

theorem execute_trade_running_guard_true (cfg : Settings) (env : CycleEnv)
    (st : BotState) (rc : Nat)
    (hcb : (check_balances cfg env.balQuoteE env.balTokenE rc).val = true) :
    (execute_trade cfg env st rc).state.running = st.running := by
  cases hbuy : (handleRequest env.buyOrderE cfg.maxRetries 0
      (decide_price cfg env.depthE env.u1 env.u2
        (check_balances cfg env.balQuoteE env.balTokenE rc).rc).rc).response with
  | none => rw [execute_trade_buy_fail cfg env st rc hcb rfl rfl hbuy]
  | some buyId =>
    cases hsell : (handleRequest env.sellOrderE cfg.maxRetries 0
        (handleRequest env.buyOrderE cfg.maxRetries 0
          (decide_price cfg env.depthE env.u1 env.u2
            (check_balances cfg env.balQuoteE env.balTokenE rc).rc).rc).retryCount).response with
    | none => rw [execute_trade_sell_fail cfg env st rc hcb rfl rfl hbuy rfl hsell]
    | some sellId =>
      rw [execute_trade_success_eq cfg env st rc hcb rfl rfl hbuy rfl hsell rfl rfl]

theorem cco_qty_bounds {maxRetries : Nat} {statusE : Nat → HttpOutcome OrderStatusResp}
    {cancelE cancel2E : Nat → HttpOutcome Unit} {oid : Option String} {rc : Nat} {A : ℚ}
    (hb : ∀ j stc, statusE j = .success stc → 0 ≤ stc.executedQty ∧ stc.executedQty ≤ A)
    (hA : 0 ≤ A) :
    0 ≤ (check_and_cancel_order maxRetries statusE cancelE cancel2E oid rc).val.qty ∧
    (check_and_cancel_order maxRetries statusE cancelE cancel2E oid rc).val.qty ≤ A := by
  cases hs : (handleRequest statusE maxRetries 0 rc).response with
  | none =>
    simp only [check_and_cancel_order, hs]
    exact ⟨le_refl 0, hA⟩
  | some st =>
    obtain ⟨j, hj⟩ := handleRequest_some_inv hs
    have hbs := hb j st hj
    by_cases hf : (st.status == "FILLED") = true
    · simp only [check_and_cancel_order, hs, hf, if_true]
      exact hbs
    · rw [Bool.not_eq_true] at hf
      cases hc : (handleRequest cancelE maxRetries 0
          (handleRequest statusE maxRetries 0 rc).retryCount).response with
      | some u =>
        simp only [check_and_cancel_order, hs, hf, Bool.false_eq_true, if_false, hc]
        exact hbs
      | none =>
        simp only [check_and_cancel_order, hs, hf, Bool.false_eq_true, if_false, hc]
        exact ⟨le_refl 0, hA⟩

theorem cco_filled_or_cancel (maxRetries : Nat) (statusE : Nat → HttpOutcome OrderStatusResp)
    (cancelE cancel2E : Nat → HttpOutcome Unit) (oid : Option String) (rc : Nat) :
    (check_and_cancel_order maxRetries statusE cancelE cancel2E oid rc).val.filled = true ∨
    Action.cancelOrder oid ∈
      (check_and_cancel_order maxRetries statusE cancelE cancel2E oid rc).trace := by
  cases hs : (handleRequest statusE maxRetries 0 rc).response with
  | none =>
    right
    simp [check_and_cancel_order, hs, List.mem_append]
  | some st =>
    by_cases hf : (st.status == "FILLED") = true
    · left
      simp [check_and_cancel_order, hs, hf]
    · right
      rw [Bool.not_eq_true] at hf
      cases hc : (handleRequest cancelE maxRetries 0
          (handleRequest statusE maxRetries 0 rc).retryCount).response with
      | some u =>
        simp [check_and_cancel_order, hs, hf, hc, List.mem_append]
      | none =>
        simp [check_and_cancel_order, hs, hf, hc, List.mem_append]

theorem cco_status_fail (maxRetries : Nat) (statusE : Nat → HttpOutcome OrderStatusResp)
    (cancelE cancel2E : Nat → HttpOutcome Unit) (oid : Option String) (rc : Nat)
    (hs : (handleRequest statusE maxRetries 0 rc).response = none) :
    (check_and_cancel_order maxRetries statusE cancelE cancel2E oid rc).val = ⟨false, 0, 0⟩ ∧
    Action.cancelOrder oid ∈
      (check_and_cancel_order maxRetries statusE cancelE cancel2E oid rc).trace := by
  constructor
  · simp [check_and_cancel_order, hs]
  · simp [check_and_cancel_order, hs, List.mem_append]

theorem execute_trade_sleep_sites (cfg : Settings) (env : CycleEnv) (st : BotState)
    (rc : Nat) (site : SleepSite) (secs : Nat)
    (h : Action.sleep site secs ∈ (execute_trade cfg env st rc).trace) :
    (site = .settlement ∧ secs = cfg.cancelDelay) ∨ site = .backoff := by
  by_cases hcb : (check_balances cfg env.balQuoteE env.balTokenE rc).val = false
  · rw [execute_trade_guard_false cfg env st rc hcb] at h
    rcases List.mem_append.mp h with h | h
    · rcases mem_check_balances_trace h with h | ⟨d, hd⟩
      · simp at h
      · simp only [Action.sleep.injEq] at hd
        exact Or.inr hd.1
    · simp at h
  · rw [Bool.not_eq_false] at hcb
    cases hbuy : (handleRequest env.buyOrderE cfg.maxRetries 0
        (decide_price cfg env.depthE env.u1 env.u2
          (check_balances cfg env.balQuoteE env.balTokenE rc).rc).rc).response with
    | none =>
      rw [execute_trade_buy_fail cfg env st rc hcb rfl rfl hbuy] at h
      rcases List.mem_append.mp h with h | h
      · rcases List.mem_append.mp h with h | h
        · rcases List.mem_append.mp h with h | h
          · rcases mem_check_balances_trace h with h | ⟨d, hd⟩
            · simp at h
            · simp only [Action.sleep.injEq] at hd
              exact Or.inr hd.1
          · rcases mem_decide_price_trace h with h | ⟨d, hd⟩
            · simp at h
            · simp only [Action.sleep.injEq] at hd
              exact Or.inr hd.1
        · rcases List.mem_cons.mp h with h | h
          · simp at h
          · obtain ⟨d, hd⟩ := mem_backoffSleeps h
            simp only [Action.sleep.injEq] at hd
            exact Or.inr hd.1
      · simp at h
    | some buyId =>
      cases hsell : (handleRequest env.sellOrderE cfg.maxRetries 0
          (handleRequest env.buyOrderE cfg.maxRetries 0
            (decide_price cfg env.depthE env.u1 env.u2
              (check_balances cfg env.balQuoteE env.balTokenE rc).rc).rc).retryCount).response with
      | none =>
        rw [execute_trade_sell_fail cfg env st rc hcb rfl rfl hbuy rfl hsell] at h
        rcases List.mem_append.mp h with h | h
        · rcases List.mem_append.mp h with h | h
          · rcases List.mem_append.mp h with h | h
            · rcases List.mem_append.mp h with h | h
              · rcases List.mem_append.mp h with h | h
                · rcases mem_check_balances_trace h with h | ⟨d, hd⟩
                  · simp at h
                  · simp only [Action.sleep.injEq] at hd
                    exact Or.inr hd.1
                · rcases mem_decide_price_trace h with h | ⟨d, hd⟩
                  · simp at h
                  · simp only [Action.sleep.injEq] at hd
                    exact Or.inr hd.1
              · rcases List.mem_cons.mp h with h | h
                · simp at h
                · obtain ⟨d, hd⟩ := mem_backoffSleeps h
                  simp only [Action.sleep.injEq] at hd
                  exact Or.inr hd.1
            · rcases List.mem_cons.mp h with h | h
              · simp at h
              · obtain ⟨d, hd⟩ := mem_backoffSleeps h
                simp only [Action.sleep.injEq] at hd
                exact Or.inr hd.1
          · by_cases htr : truthyId buyId = true
            · rw [if_pos htr] at h
              rcases List.mem_cons.mp h with h | h
              · simp at h
              · obtain ⟨d, hd⟩ := mem_backoffSleeps h
                simp only [Action.sleep.injEq] at hd
                exact Or.inr hd.1
            · rw [Bool.not_eq_true] at htr
              rw [if_neg (by simp [htr])] at h
              simp at h
        · simp at h
      | some sellId =>
        rw [execute_trade_success_eq cfg env st rc hcb rfl rfl hbuy rfl hsell rfl rfl] at h
        rcases List.mem_append.mp h with h | h
        · rcases List.mem_append.mp h with h | h
          · rcases List.mem_append.mp h with h | h
            · rcases List.mem_append.mp h with h | h
              · rcases List.mem_append.mp h with h | h
                · rcases List.mem_append.mp h with h | h
                  · rcases List.mem_append.mp h with h | h
                    · rcases mem_check_balances_trace h with h | ⟨d, hd⟩
                      · simp at h
                      · simp only [Action.sleep.injEq] at hd
                        exact Or.inr hd.1
                    · rcases mem_decide_price_trace h with h | ⟨d, hd⟩
                      · simp at h
                      · simp only [Action.sleep.injEq] at hd
                        exact Or.inr hd.1
                  · rcases List.mem_cons.mp h with h | h
                    · simp at h
                    · obtain ⟨d, hd⟩ := mem_backoffSleeps h
                      simp only [Action.sleep.injEq] at hd
                      exact Or.inr hd.1
                · rcases List.mem_cons.mp h with h | h
                  · simp at h
                  · obtain ⟨d, hd⟩ := mem_backoffSleeps h
                    simp only [Action.sleep.injEq] at hd
                    exact Or.inr hd.1
              · rcases List.mem_singleton.mp h with h
                simp only [Action.sleep.injEq] at h
                exact Or.inl ⟨h.1, h.2⟩
            · rcases mem_cco_trace h with h | h | ⟨d, hd⟩
              · simp at h
              · simp at h
              · simp only [Action.sleep.injEq] at hd
                exact Or.inr hd.1
          · rcases mem_cco_trace h with h | h | ⟨d, hd⟩
            · simp at h
            · simp at h
            · simp only [Action.sleep.injEq] at hd
              exact Or.inr hd.1
        · simp at h

theorem trading_loop_sleep_sites (cfg : Settings) (envs : Nat → CycleEnv)
    (flags : Nat → Nat → Bool) (draws : Nat → Nat) :
    ∀ (fuel n : Nat) (st : BotState) (rc : Nat) (site : SleepSite) (secs : Nat),
      Action.sleep site secs ∈ (trading_loop cfg envs flags draws fuel n st rc).2.2 →
      (site = .settlement ∧ secs = cfg.cancelDelay) ∨ site = .backoff ∨
        (site = .interCycleTick ∧ secs = 1) := by
  intro fuel
  induction fuel with
  | zero =>
    intro n st rc site secs h
    simp [trading_loop] at h
  | succ fuel ih =>
    intro n st rc site secs h
    by_cases hrun : st.running = true
    · simp only [trading_loop, hrun, if_true] at h
      by_cases hcs : (execute_trade cfg (envs n) st rc).state.running = true
      · simp only [hcs, if_true] at h
        rcases List.mem_append.mp h with h | h
        · rcases List.mem_append.mp h with h | h
          · rcases execute_trade_sleep_sites cfg (envs n) st rc site secs h with h | h
            · exact Or.inl h
            · exact Or.inr (Or.inl h)
          · have hx := List.eq_of_mem_replicate h
            simp only [Action.sleep.injEq] at hx
            exact Or.inr (Or.inr ⟨hx.1, hx.2⟩)
        · exact ih (n + 1) _ _ site secs h
      · rw [Bool.not_eq_true] at hcs
        simp only [hcs, Bool.false_eq_true, if_false] at h
        rcases List.mem_append.mp h with h | h
        · rcases execute_trade_sleep_sites cfg (envs n) st rc site secs h with h | h
          · exact Or.inl h
          · exact Or.inr (Or.inl h)
        · exact ih (n + 1) _ _ site secs h
    · rw [Bool.not_eq_true] at hrun
      simp [trading_loop, hrun] at h

theorem ticksFrom_le (flag : Nat → Bool) : ∀ (w i : Nat), ticksFrom flag i w ≤ w := by
  intro w
  induction w with
  | zero => intro i; simp [ticksFrom]
  | succ w ih =>
    intro i
    by_cases hf : flag i = true
    · simp only [ticksFrom, hf, if_true]
      exact Nat.succ_le_succ (ih (i + 1))
    · rw [Bool.not_eq_true] at hf
      simp [ticksFrom, hf]

theorem ticksFrom_le_of_flag_false (flag : Nat → Bool) :
    ∀ (w i j : Nat), flag (i + j) = false → ticksFrom flag i w ≤ j := by
  intro w
  induction w with
  | zero => intro i j _; simp [ticksFrom]
  | succ w ih =>
    intro i j hfl
    by_cases hf : flag i = true
    · simp only [ticksFrom, hf, if_true]
      cases j with
      | zero =>
        rw [Nat.add_zero, hf] at hfl
        exact Bool.noConfusion hfl
      | succ j =>
        have hstep := ih (i + 1) j (by rw [show i + 1 + j = i + (j + 1) by omega]; exact hfl)
        omega
    · rw [Bool.not_eq_true] at hf
      simp [ticksFrom, hf]

/-! Concrete evaluations on the witness environments. -/

theorem gsb_usdt : get_specific_balance okAccount "USDT" = 1000 := by
  simp only [get_specific_balance, dictGet, get_balances, okAccount, List.map_cons,
    List.map_nil, List.reverse_cons, List.reverse_nil, List.nil_append, List.cons_append,
    List.lookup, show ("USDT" == "CREPE") = false from by decide,
    show ("USDT" == "USDT") = true from by decide]
  norm_num

theorem gsb_crepe : get_specific_balance okAccount "CREPE" = 1000 := by
  simp only [get_specific_balance, dictGet, get_balances, okAccount, List.map_cons,
    List.map_nil, List.reverse_cons, List.reverse_nil, List.nil_append, List.cons_append,
    List.lookup, show ("CREPE" == "CREPE") = true from by decide]
  norm_num

theorem cb_base : check_balances defaultConfig envBase.balQuoteE envBase.balTokenE 0 =
    ⟨true, [Action.fetchBalances, Action.fetchBalances], 0⟩ := by
  have h1 := handleRequest_success envBase.balQuoteE defaultConfig.maxRetries 0 0 okAccount rfl
  have h2 := handleRequest_success envBase.balTokenE defaultConfig.maxRetries 0 0 okAccount rfl
  simp only [check_balances, h1, h2]
  rw [if_neg (by show ¬(get_specific_balance okAccount "USDT" < (100 : ℚ)); rw [gsb_usdt]; norm_num)]
  rw [if_neg (by show ¬(get_specific_balance okAccount "CREPE" < (500 : ℚ)); rw [gsb_crepe]; norm_num)]
  rfl

theorem roundTo8_eleven : roundTo8 11 = 11 := by
  simp only [roundTo8, roundHalfEven]
  have h1 : ((11 : ℚ) * 10 ^ 8) = 1100000000 := by norm_num
  rw [h1]
  have h2 : ⌊(1100000000 : ℚ)⌋ = 1100000000 := by
    rw [show ((1100000000 : ℚ)) = ((1100000000 : ℤ) : ℚ) by norm_num]
    exact Int.floor_intCast _
  rw [h2]
  rw [if_pos (by push_cast; norm_num)]
  norm_num

theorem dp_base : decide_price defaultConfig envBase.depthE 0 0 0 =
    ⟨11, [Action.fetchBidAsk], 0⟩ := by
  have h := handleRequest_success envBase.depthE defaultConfig.maxRetries 0 0 (11, 551 / 50) rfl
  simp only [decide_price, h]
  rw [if_pos (by refine ⟨?_, ?_, ?_, ?_⟩ <;> norm_num [defaultConfig])]
  rw [show (11 + (551 / 50 - 11) * 0 : ℚ) = 11 by ring, roundTo8_eleven]
  rfl

theorem cco_buy_base :
    check_and_cancel_order defaultConfig.maxRetries envBase.buyStatusE envBase.buyCancelE
      envBase.buyCancel2E (some "B1") 0 =
      ⟨⟨true, 10, 11⟩, [Action.queryStatus (some "B1")], 0⟩ := by
  have hs := handleRequest_success envBase.buyStatusE defaultConfig.maxRetries 0 0
    ⟨"FILLED", 10, 11⟩ rfl
  simp only [check_and_cancel_order, hs]
  rw [if_pos (show ("FILLED" == "FILLED") = true from by decide)]
  rfl

theorem cco_sell_base :
    check_and_cancel_order defaultConfig.maxRetries envBase.sellStatusE envBase.sellCancelE
      envBase.sellCancel2E (some "S1") 0 =
      ⟨⟨false, 6, 11⟩, [Action.queryStatus (some "S1"), Action.cancelOrder (some "S1")], 0⟩ := by
  have hs := handleRequest_success envBase.sellStatusE defaultConfig.maxRetries 0 0
    ⟨"PARTIALLY_FILLED", 6, 11⟩ rfl
  have hc := handleRequest_success envBase.sellCancelE defaultConfig.maxRetries 0 0 () rfl
  simp only [check_and_cancel_order, hs]
  rw [if_neg (by decide)]
  simp only [hc]
  rfl

theorem exec_base : execute_trade defaultConfig envBase ⟨true, 0⟩ 0 =
    ⟨⟨true, 1⟩, true,
      [Action.fetchBalances, Action.fetchBalances, Action.fetchBidAsk,
        Action.createOrder "BUY" 11 10, Action.createOrder "SELL" 11 10,
        Action.sleep .settlement 1, Action.queryStatus (some "B1"),
        Action.queryStatus (some "S1"), Action.cancelOrder (some "S1"),
        Action.saveTrade, Action.notify],
      some ⟨11, 10, 6, 60, some "B1", some "S1", true, false⟩,
      some (⟨true, 10, 11⟩, ⟨false, 6, 11⟩), ["B1", "S1"], 0⟩ := by
  have hdpX : decide_price defaultConfig envBase.depthE envBase.u1 envBase.u2
      (check_balances defaultConfig envBase.balQuoteE envBase.balTokenE 0).rc =
      ⟨11, [Action.fetchBidAsk], 0⟩ := by
    rw [cb_base]
    exact dp_base
  rw [execute_trade_success_eq defaultConfig envBase ⟨true, 0⟩ 0
    (by rw [cb_base]) hdpX
    (handleRequest_success envBase.buyOrderE defaultConfig.maxRetries 0 0 (some "B1") rfl)
    rfl
    (handleRequest_success envBase.sellOrderE defaultConfig.maxRetries 0 0 (some "S1") rfl)
    rfl cco_buy_base cco_sell_base]
  rw [cb_base]
  norm_num [defaultConfig, backoffSleeps, openedIds, CycleResult.mk.injEq,
    TradeRecord.mk.injEq]

theorem hr_guardfail :
    handleRequest envGuardFail.balQuoteE defaultConfig.maxRetries 0 0 = ⟨none, [2, 4, 8], 3⟩ := by
  have h := handleRequestAux_persistent envGuardFail.balQuoteE (fun _ => trivial) 3 0 0
  show handleRequestAux envGuardFail.balQuoteE 3 0 0 = _
  rw [h]
  simp [expDelays]

theorem cb_guardfail_val :
    (check_balances defaultConfig envGuardFail.balQuoteE envGuardFail.balTokenE 0).val =
      false := by
  simp only [check_balances, hr_guardfail]

theorem hr_backoffdepth :
    handleRequest envBackoff.depthE defaultConfig.maxRetries 0 0 =
      ⟨some (11, 551 / 50), [2], 0⟩ := by
  show handleRequestAux envBackoff.depthE 3 0 0 = _
  norm_num [handleRequestAux, envBackoff, retryableStatus]

theorem dp_backoff : decide_price defaultConfig envBackoff.depthE 0 0 0 =
    ⟨11, [Action.fetchBidAsk, Action.sleep .backoff 2], 0⟩ := by
  simp only [decide_price, hr_backoffdepth]
  rw [if_pos (by refine ⟨?_, ?_, ?_, ?_⟩ <;> norm_num [defaultConfig])]
  rw [show (11 + (551 / 50 - 11) * 0 : ℚ) = 11 by ring, roundTo8_eleven]
  rfl

theorem exec_backoff : execute_trade defaultConfig envBackoff ⟨true, 0⟩ 0 =
    ⟨⟨true, 1⟩, true,
      [Action.fetchBalances, Action.fetchBalances, Action.fetchBidAsk,
        Action.sleep .backoff 2,
        Action.createOrder "BUY" 11 10, Action.createOrder "SELL" 11 10,
        Action.sleep .settlement 1, Action.queryStatus (some "B1"),
        Action.queryStatus (some "S1"), Action.cancelOrder (some "S1"),
        Action.saveTrade, Action.notify],
      some ⟨11, 10, 6, 60, some "B1", some "S1", true, false⟩,
      some (⟨true, 10, 11⟩, ⟨false, 6, 11⟩), ["B1", "S1"], 0⟩ := by
  have hcb : check_balances defaultConfig envBackoff.balQuoteE envBackoff.balTokenE 0 =
      ⟨true, [Action.fetchBalances, Action.fetchBalances], 0⟩ := cb_base
  have hbr : check_and_cancel_order defaultConfig.maxRetries envBackoff.buyStatusE
      envBackoff.buyCancelE envBackoff.buyCancel2E (some "B1") 0 =
      ⟨⟨true, 10, 11⟩, [Action.queryStatus (some "B1")], 0⟩ := cco_buy_base
  have hsr : check_and_cancel_order defaultConfig.maxRetries envBackoff.sellStatusE
      envBackoff.sellCancelE envBackoff.sellCancel2E (some "S1") 0 =
      ⟨⟨false, 6, 11⟩, [Action.queryStatus (some "S1"), Action.cancelOrder (some "S1")], 0⟩ :=
    cco_sell_base
  have hdpX : decide_price defaultConfig envBackoff.depthE envBackoff.u1 envBackoff.u2
      (check_balances defaultConfig envBackoff.balQuoteE envBackoff.balTokenE 0).rc =
      ⟨11, [Action.fetchBidAsk, Action.sleep .backoff 2], 0⟩ := by
    rw [hcb]
    exact dp_backoff
  rw [execute_trade_success_eq defaultConfig envBackoff ⟨true, 0⟩ 0
    (by rw [hcb]) hdpX
    (handleRequest_success envBackoff.buyOrderE defaultConfig.maxRetries 0 0 (some "B1") rfl)
    rfl
    (handleRequest_success envBackoff.sellOrderE defaultConfig.maxRetries 0 0 (some "S1") rfl)
    rfl hbr hsr]
  rw [hcb]
  norm_num [defaultConfig, backoffSleeps, openedIds, CycleResult.mk.injEq,
    TradeRecord.mk.injEq]

theorem hr_statusfail : (handleRequest statusFailE 3 0 0).response = none := by
  show (handleRequestAux statusFailE 3 0 0).response = none
  rw [handleRequestAux_persistent statusFailE (fun _ => trivial) 3 0 0]

theorem loop_base :
    trading_loop defaultConfig (fun _ => envBase) (fun _ _ => false) (fun _ => 0) 1 0
      ⟨true, 0⟩ 0 =
      (⟨false, 1⟩, 0,
        [Action.fetchBalances, Action.fetchBalances, Action.fetchBidAsk,
          Action.createOrder "BUY" 11 10, Action.createOrder "SELL" 11 10,
          Action.sleep .settlement 1, Action.queryStatus (some "B1"),
          Action.queryStatus (some "S1"), Action.cancelOrder (some "S1"),
          Action.saveTrade, Action.notify]) := by
  simp only [trading_loop, exec_base]
  norm_num [trading_loop, interCycleTicks, ticksFrom, waitTimeOf]

theorem loop_backoff :
    trading_loop defaultConfig (fun _ => envBackoff) (fun _ _ => false) (fun _ => 0) 1 0
      ⟨true, 0⟩ 0 =
      (⟨false, 1⟩, 0,
        [Action.fetchBalances, Action.fetchBalances, Action.fetchBidAsk,
          Action.sleep .backoff 2,
          Action.createOrder "BUY" 11 10, Action.createOrder "SELL" 11 10,
          Action.sleep .settlement 1, Action.queryStatus (some "B1"),
          Action.queryStatus (some "S1"), Action.cancelOrder (some "S1"),
          Action.saveTrade, Action.notify]) := by
  simp only [trading_loop, exec_backoff]
  norm_num [trading_loop, interCycleTicks, ticksFrom, waitTimeOf]

/-! Claim theorems. -/

/-- C1 (counterexample). The retry counter is instance state that is reset
only by a successful response: a first persistently-failing transient call
on a fresh client performs the three retries with delays 2, 4, 8 seconds and
leaves self.retry_count = 3; the next persistently-failing transient call on
the same client therefore performs zero retries, not max_retries = 3,
refuting the claim that every persistently-failing transient call retries
exactly R times. -/
theorem gateway_retry_counter_leak :
    (handleRequest env500 3 0 0).delays = [2, 4, 8] ∧
    (handleRequest env500 3 0 0).retryCount = 3 ∧
    (handleRequest env500 3 0 ((handleRequest env500 3 0 0).retryCount)).response = none ∧
    (handleRequest env500 3 0 ((handleRequest env500 3 0 0).retryCount)).delays.length = 0 := by
  decide

/-- C1 (amended). A transient call that fails persistently, entered with the
shared retry counter at rc ≤ max_retries, performs exactly max_retries - rc
retries with strictly increasing delays 2^(rc+1+k) seconds, ends by raising
(no response), and leaves the counter at max_retries; in particular a call
entered with the counter at zero (a fresh client, or any call after a
success, which resets the counter) performs exactly max_retries retries. -/
theorem gateway_retry_backoff {α : Type} (attempts : Nat → HttpOutcome α)
    (maxRetries i rc : Nat) (hp : ∀ j, TransientOutcome (attempts j))
    (hrc : rc ≤ maxRetries) :
    (handleRequest attempts maxRetries i rc).response = none ∧
    (handleRequest attempts maxRetries i rc).delays =
      (List.range (maxRetries - rc)).map (fun k => 2 ^ (rc + 1 + k)) ∧
    (handleRequest attempts maxRetries i rc).delays.length = maxRetries - rc ∧
    List.Chain' (· < ·) (handleRequest attempts maxRetries i rc).delays ∧
    (handleRequest attempts maxRetries i rc).retryCount = maxRetries := by
  have h0 := handleRequestAux_persistent attempts hp (maxRetries - rc) i rc
  unfold handleRequest
  rw [h0]
  refine ⟨rfl, expDelays_eq_map _ _, ?_, expDelays_chain _ _,
    by show rc + (maxRetries - rc) = maxRetries; omega⟩
  rw [expDelays_eq_map]
  simp

theorem roundTo8_ten_plus_nano : roundTo8 (10 + 1 / 10 ^ 9) = 10 := by
  simp only [roundTo8, roundHalfEven]
  have h1 : ((10 + 1 / 10 ^ 9 : ℚ) * 10 ^ 8) = 10 ^ 9 + 1 / 10 := by norm_num
  rw [h1]
  have h2 : ⌊(10 ^ 9 + 1 / 10 : ℚ)⌋ = 10 ^ 9 := by
    rw [Int.floor_eq_iff]
    constructor <;> push_cast <;> norm_num
  rw [h2]
  rw [if_pos (by push_cast; norm_num)]
  norm_num

/-- C2. A balance-guard failure is the only failure that stops the schedule:
(a) when _check_balances reports failure at the top of a cycle, execute_trade
clears the running flag, returns False, and submits no order; (b) when the
guard passes, no later failure in the cycle touches the running flag;
(c) consequently the worker loop exits right after a guard-failing cycle,
performing no further action; and (d) after any guard-passing cycle —
failed or not — the loop proceeds to the inter-cycle wait and the next
iteration. -/
theorem balance_guard_sole_stopper :
    (∀ (cfg : Settings) (env : CycleEnv) (st : BotState) (rc : Nat),
      (check_balances cfg env.balQuoteE env.balTokenE rc).val = false →
      (execute_trade cfg env st rc).state.running = false ∧
      (execute_trade cfg env st rc).ok = false ∧
      (execute_trade cfg env st rc).opened = [] ∧
      (∀ s p q, Action.createOrder s p q ∉ (execute_trade cfg env st rc).trace)) ∧
    (∀ (cfg : Settings) (env : CycleEnv) (st : BotState) (rc : Nat),
      st.running = true →
      (check_balances cfg env.balQuoteE env.balTokenE rc).val = true →
      (execute_trade cfg env st rc).state.running = true) ∧
    (∀ (cfg : Settings) (envs : Nat → CycleEnv) (flags : Nat → Nat → Bool)
        (draws : Nat → Nat) (fuel n : Nat) (st : BotState) (rc : Nat),
      st.running = true →
      (check_balances cfg (envs n).balQuoteE (envs n).balTokenE rc).val = false →
      trading_loop cfg envs flags draws (fuel + 1) n st rc =
        ((execute_trade cfg (envs n) st rc).state, (execute_trade cfg (envs n) st rc).rc,
          (execute_trade cfg (envs n) st rc).trace)) ∧
    (∀ (cfg : Settings) (envs : Nat → CycleEnv) (flags : Nat → Nat → Bool)
        (draws : Nat → Nat) (fuel n : Nat) (st : BotState) (rc : Nat),
      st.running = true →
      (check_balances cfg (envs n).balQuoteE (envs n).balTokenE rc).val = true →
      trading_loop cfg envs flags draws (fuel + 1) n st rc =
        ((trading_loop cfg envs flags draws fuel (n + 1)
            ⟨flags n (interCycleTicks (flags n) (waitTimeOf cfg (draws n))),
              (execute_trade cfg (envs n) st rc).state.tradeCount⟩
            (execute_trade cfg (envs n) st rc).rc).1,
          (trading_loop cfg envs flags draws fuel (n + 1)
            ⟨flags n (interCycleTicks (flags n) (waitTimeOf cfg (draws n))),
              (execute_trade cfg (envs n) st rc).state.tradeCount⟩
            (execute_trade cfg (envs n) st rc).rc).2.1,
          (execute_trade cfg (envs n) st rc).trace ++
            List.replicate (interCycleTicks (flags n) (waitTimeOf cfg (draws n)))
              (Action.sleep .interCycleTick 1) ++
            (trading_loop cfg envs flags draws fuel (n + 1)
              ⟨flags n (interCycleTicks (flags n) (waitTimeOf cfg (draws n))),
                (execute_trade cfg (envs n) st rc).state.tradeCount⟩
              (execute_trade cfg (envs n) st rc).rc).2.2)) := by
  refine ⟨?_, ?_, ?_, ?_⟩
  · intro cfg env st rc hcb
    rw [execute_trade_guard_false cfg env st rc hcb]
    refine ⟨rfl, rfl, rfl, ?_⟩
    intro s p q hmem
    rcases List.mem_append.mp hmem with h | h
    · rcases mem_check_balances_trace h with h | ⟨d, hd⟩
      · simp at h
      · simp at hd
    · simp at h
  · intro cfg env st rc hrun hcb
    rw [execute_trade_running_guard_true cfg env st rc hcb]
    exact hrun
  · intro cfg envs flags draws fuel n st rc hrun hcb
    have hex := execute_trade_guard_false cfg (envs n) st rc hcb
    simp only [trading_loop, hrun, if_true, hex, Bool.false_eq_true, if_false]
    rw [trading_loop_stopped cfg envs flags draws fuel (n + 1) ⟨false, st.tradeCount⟩
      (check_balances cfg (envs n).balQuoteE (envs n).balTokenE rc).rc rfl]
    simp
  · intro cfg envs flags draws fuel n st rc hrun hcb
    have hcs : (execute_trade cfg (envs n) st rc).state.running = true := by
      rw [execute_trade_running_guard_true cfg (envs n) st rc hcb]
      exact hrun
    simp only [trading_loop, hrun, if_true, hcs]

/-- C2 (witness): part (a) and (c) on a cycle whose account fetch dies
(the guard reports failure), part (b) on a cycle whose buy submission dies
after a passing guard, and part (d) on an all-success cycle. -/
theorem balance_guard_sole_stopper_witness :
    ((execute_trade defaultConfig envGuardFail ⟨true, 0⟩ 0).state.running = false ∧
      (execute_trade defaultConfig envGuardFail ⟨true, 0⟩ 0).ok = false ∧
      (execute_trade defaultConfig envGuardFail ⟨true, 0⟩ 0).opened = [] ∧
      Action.createOrder "BUY" 11 10 ∉
        (execute_trade defaultConfig envGuardFail ⟨true, 0⟩ 0).trace) ∧
    (execute_trade defaultConfig envBuyFail ⟨true, 0⟩ 0).state.running = true ∧
    trading_loop defaultConfig (fun _ => envGuardFail) (fun _ _ => true) (fun _ => 0) 1 0
      ⟨true, 0⟩ 0 =
      ((execute_trade defaultConfig envGuardFail ⟨true, 0⟩ 0).state,
        (execute_trade defaultConfig envGuardFail ⟨true, 0⟩ 0).rc,
        (execute_trade defaultConfig envGuardFail ⟨true, 0⟩ 0).trace) := by
  have ha := balance_guard_sole_stopper.1 defaultConfig envGuardFail ⟨true, 0⟩ 0 cb_guardfail_val
  have hb := balance_guard_sole_stopper.2.1 defaultConfig envBuyFail ⟨true, 0⟩ 0 rfl
    (by rw [show check_balances defaultConfig envBuyFail.balQuoteE envBuyFail.balTokenE 0 =
      ⟨true, [Action.fetchBalances, Action.fetchBalances], 0⟩ from cb_base])
  have hc := balance_guard_sole_stopper.2.2.1 defaultConfig (fun _ => envGuardFail)
    (fun _ _ => true) (fun _ => 0) 0 0 ⟨true, 0⟩ 0 rfl cb_guardfail_val
  exact ⟨⟨ha.1, ha.2.1, ha.2.2.1, ha.2.2.2 "BUY" 11 10⟩, hb, hc⟩

/-- C3 (counterexample). With the shipped band [10, 12] and a successful
quote bid = 10 + 10⁻⁹, ask = 10 + 2·10⁻⁹ (both inside the band) and draw
u1 = 0, the in-band branch picks bid and then rounds to 8 decimal places,
producing 10 — strictly below bid, so the decided price does NOT lie in
[bid, ask] as the claim asserts. -/
theorem price_rounding_escapes_band :
    (defaultConfig.minPrice ≤ 10 + 1 / 10 ^ 9 ∧ 10 + 1 / 10 ^ 9 ≤ defaultConfig.maxPrice ∧
      defaultConfig.minPrice ≤ 10 + 2 / 10 ^ 9 ∧ 10 + 2 / 10 ^ 9 ≤ defaultConfig.maxPrice) ∧
    (handleRequest depthC3 defaultConfig.maxRetries 0 0).response =
      some (10 + 1 / 10 ^ 9, 10 + 2 / 10 ^ 9) ∧
    (decide_price defaultConfig depthC3 0 0 0).val = 10 ∧
    (decide_price defaultConfig depthC3 0 0 0).val < 10 + 1 / 10 ^ 9 := by
  have hresp : (handleRequest depthC3 defaultConfig.maxRetries 0 0).response =
      some (10 + 1 / 10 ^ 9, 10 + 2 / 10 ^ 9) := rfl
  have h := decide_price_some defaultConfig depthC3 0 0 0 (10 + 1 / 10 ^ 9) (10 + 2 / 10 ^ 9) hresp
  rw [if_pos (by norm_num [defaultConfig])] at h
  have hx : (10 + 1 / 10 ^ 9 + (10 + 2 / 10 ^ 9 - (10 + 1 / 10 ^ 9)) * 0 : ℚ) =
      10 + 1 / 10 ^ 9 := by ring
  rw [hx, roundTo8_ten_plus_nano] at h
  refine ⟨⟨by norm_num [defaultConfig], by norm_num [defaultConfig],
    by norm_num [defaultConfig], by norm_num [defaultConfig]⟩, hresp, h, ?_⟩
  rw [h]
  norm_num

/-- C3 (amended). For every successful bid/ask fetch with bid ≤ ask,
min_price ≤ max_price and draws in [0, 1]: if both bid and ask lie in
[min_price, max_price], the decided price is the uniform point
bid + (ask − bid)·u1 rounded to 8 decimals, hence lies within half an
8-decimal ulp (5·10⁻⁹) of [bid, ask]; otherwise it is bid plus a uniform
fraction in [0.3, 0.7] of the spread, clamped into [min_price, max_price]
and rounded to 8 decimals, hence lies within half an ulp of
[min_price, max_price]. (The unrounded value lies in the respective
interval exactly; rounding can move it outside, as the counterexample
shows, but by at most 5·10⁻⁹.) -/
theorem price_decision_characterization (cfg : Settings)
    (depthE : Nat → HttpOutcome (ℚ × ℚ)) (u1 u2 : ℚ) (rc : Nat) (bid ask : ℚ)
    (hresp : (handleRequest depthE cfg.maxRetries 0 rc).response = some (bid, ask))
    (hu1 : 0 ≤ u1 ∧ u1 ≤ 1) (hu2 : 0 ≤ u2 ∧ u2 ≤ 1)
    (hba : bid ≤ ask) (hband : cfg.minPrice ≤ cfg.maxPrice) :
    ((cfg.minPrice ≤ bid ∧ bid ≤ cfg.maxPrice ∧ cfg.minPrice ≤ ask ∧ ask ≤ cfg.maxPrice) →
      (decide_price cfg depthE u1 u2 rc).val = roundTo8 (bid + (ask - bid) * u1) ∧
      bid ≤ bid + (ask - bid) * u1 ∧ bid + (ask - bid) * u1 ≤ ask ∧
      bid - 1 / (2 * 10 ^ 8) ≤ (decide_price cfg depthE u1 u2 rc).val ∧
      (decide_price cfg depthE u1 u2 rc).val ≤ ask + 1 / (2 * 10 ^ 8)) ∧
    (¬(cfg.minPrice ≤ bid ∧ bid ≤ cfg.maxPrice ∧ cfg.minPrice ≤ ask ∧ ask ≤ cfg.maxPrice) →
      (decide_price cfg depthE u1 u2 rc).val =
        roundTo8 (max cfg.minPrice
          (min cfg.maxPrice (bid + (ask - bid) * (3 / 10 + (7 / 10 - 3 / 10) * u2)))) ∧
      cfg.minPrice - 1 / (2 * 10 ^ 8) ≤ (decide_price cfg depthE u1 u2 rc).val ∧
      (decide_price cfg depthE u1 u2 rc).val ≤ cfg.maxPrice + 1 / (2 * 10 ^ 8)) := by
  have hval := decide_price_some cfg depthE u1 u2 rc bid ask hresp
  constructor
  · intro hin
    rw [if_pos hin] at hval
    have hlow : 0 ≤ (ask - bid) * u1 := mul_nonneg (by linarith) hu1.1
    have hhigh : (ask - bid) * u1 ≤ ask - bid :=
      mul_le_of_le_one_right (by linarith) hu1.2
    have hr := roundTo8_bounds (bid + (ask - bid) * u1)
    exact ⟨hval, by linarith, by linarith, by rw [hval]; linarith [hr.1],
      by rw [hval]; linarith [hr.2]⟩
  · intro hout
    rw [if_neg hout] at hval
    set v := bid + (ask - bid) * (3 / 10 + (7 / 10 - 3 / 10) * u2) with hv
    have hclow : cfg.minPrice ≤ max cfg.minPrice (min cfg.maxPrice v) := le_max_left _ _
    have hchigh : max cfg.minPrice (min cfg.maxPrice v) ≤ cfg.maxPrice :=
      max_le hband (min_le_left _ _)
    have hr := roundTo8_bounds (max cfg.minPrice (min cfg.maxPrice v))
    exact ⟨hval, by rw [hval]; linarith [hr.1], by rw [hval]; linarith [hr.2]⟩

/-- C3 (witness): the amended theorem evaluated on the spec's scenario
quote bid = 11, ask = 11.02 inside the default band [10, 12], with u1 = 0. -/
theorem price_decision_characterization_witness :
    (decide_price defaultConfig envBase.depthE 0 0 0).val =
      roundTo8 (11 + (551 / 50 - 11) * 0) ∧
    (11 : ℚ) - 1 / (2 * 10 ^ 8) ≤ (decide_price defaultConfig envBase.depthE 0 0 0).val ∧
    (decide_price defaultConfig envBase.depthE 0 0 0).val ≤ 551 / 50 + 1 / (2 * 10 ^ 8) := by
  have h := (price_decision_characterization defaultConfig envBase.depthE 0 0 0 11 (551 / 50)
    rfl ⟨by norm_num, by norm_num⟩ ⟨by norm_num, by norm_num⟩ (by norm_num)
    (by norm_num [defaultConfig])).1 (by norm_num [defaultConfig])
  exact ⟨h.1, h.2.2.2.1, h.2.2.2.2⟩

/-- C4. When the quote fetch fails, the cycle is not aborted: _decide_price
catches the error and returns the midpoint (min_price + max_price) / 2 of
the configured band, which lies in [min_price, max_price] whenever
min_price ≤ max_price. -/
theorem quote_failure_midpoint_fallback (cfg : Settings)
    (depthE : Nat → HttpOutcome (ℚ × ℚ)) (u1 u2 : ℚ) (rc : Nat)
    (hfail : (handleRequest depthE cfg.maxRetries 0 rc).response = none) :
    (decide_price cfg depthE u1 u2 rc).val = (cfg.minPrice + cfg.maxPrice) / 2 ∧
    (cfg.minPrice ≤ cfg.maxPrice →
      cfg.minPrice ≤ (decide_price cfg depthE u1 u2 rc).val ∧
      (decide_price cfg depthE u1 u2 rc).val ≤ cfg.maxPrice) := by
  have h := decide_price_none cfg depthE u1 u2 rc hfail
  refine ⟨h, fun hle => ?_⟩
  rw [h]
  constructor <;> linarith

/-- C4 (witness): on the shipped band [10, 12] with a persistently failing
quote fetch, the decided price is the midpoint 11, inside the band. -/
theorem quote_failure_midpoint_fallback_witness :
    (decide_price defaultConfig depthFail 0 0 0).val =
      (defaultConfig.minPrice + defaultConfig.maxPrice) / 2 ∧
    defaultConfig.minPrice ≤ (decide_price defaultConfig depthFail 0 0 0).val ∧
    (decide_price defaultConfig depthFail 0 0 0).val ≤ defaultConfig.maxPrice := by
  have h := quote_failure_midpoint_fallback defaultConfig depthFail 0 0 0 (by decide)
  exact ⟨h.1, (h.2 (by decide)).1, (h.2 (by decide)).2⟩

/-- C1 (witness): the amended theorem evaluated on a fresh client with
max_retries = 3 and every attempt an HTTP 500. -/
theorem gateway_retry_backoff_witness :
    (handleRequest env500 3 0 0).response = none ∧
    (handleRequest env500 3 0 0).delays =
      (List.range (3 - 0)).map (fun k => 2 ^ (0 + 1 + k)) ∧
    (handleRequest env500 3 0 0).delays.length = 3 - 0 ∧
    List.Chain' (· < ·) (handleRequest env500 3 0 0).delays ∧
    (handleRequest env500 3 0 0).retryCount = 3 :=
  gateway_retry_backoff env500 3 0 0 (fun _ => rfl) (by omega)

/-- C5. For every completed cycle (a cycle whose record reaches save_trade),
the recorded filled_quantity is min(buy_filled_qty, sell_filled_qty) of the
two reconciled legs, the recorded quantity is the configured trade amount,
and — provided the exchange reports per-leg executed quantities within
[0, requested] — the record satisfies 0 ≤ filled_quantity ≤ requested and
fill_percent = filled_quantity / requested × 100 when requested > 0, and
fill_percent = 0 when requested = 0. -/
theorem fill_accounting (cfg : Settings) (env : CycleEnv) (st : BotState) (rc : Nat)
    (hbuy : ∀ j stc, env.buyStatusE j = .success stc →
      0 ≤ stc.executedQty ∧ stc.executedQty ≤ cfg.tradeAmount)
    (hsell : ∀ j stc, env.sellStatusE j = .success stc →
      0 ≤ stc.executedQty ∧ stc.executedQty ≤ cfg.tradeAmount) :
    ∀ rec, (execute_trade cfg env st rc).saved = some rec →
    ∀ bl sl, (execute_trade cfg env st rc).legs = some (bl, sl) →
      rec.filledQuantity = min bl.qty sl.qty ∧
      rec.quantity = cfg.tradeAmount ∧
      (0 < cfg.tradeAmount →
        rec.filledPercent = rec.filledQuantity / cfg.tradeAmount * 100 ∧
        0 ≤ rec.filledQuantity ∧ rec.filledQuantity ≤ cfg.tradeAmount) ∧
      (cfg.tradeAmount = 0 → rec.filledPercent = 0) := by
  intro rec hsaved bl sl hlegs
  by_cases hcb : (check_balances cfg env.balQuoteE env.balTokenE rc).val = false
  · rw [execute_trade_guard_false cfg env st rc hcb] at hsaved
    simp at hsaved
  · rw [Bool.not_eq_false] at hcb
    cases hbuy2 : (handleRequest env.buyOrderE cfg.maxRetries 0
        (decide_price cfg env.depthE env.u1 env.u2
          (check_balances cfg env.balQuoteE env.balTokenE rc).rc).rc).response with
    | none =>
      rw [execute_trade_buy_fail cfg env st rc hcb rfl rfl hbuy2] at hsaved
      simp at hsaved
    | some buyId =>
      cases hsell2 : (handleRequest env.sellOrderE cfg.maxRetries 0
          (handleRequest env.buyOrderE cfg.maxRetries 0
            (decide_price cfg env.depthE env.u1 env.u2
              (check_balances cfg env.balQuoteE env.balTokenE rc).rc).rc).retryCount).response with
      | none =>
        rw [execute_trade_sell_fail cfg env st rc hcb rfl rfl hbuy2 rfl hsell2] at hsaved
        simp at hsaved
      | some sellId =>
        rw [execute_trade_success_eq cfg env st rc hcb rfl rfl hbuy2 rfl hsell2 rfl rfl]
          at hsaved hlegs
        dsimp only at hsaved hlegs
        injection hsaved with h1
        subst h1
        injection hlegs with h2
        injection h2 with h2a h2b
        subst h2a
        subst h2b
        refine ⟨rfl, rfl, ?_, ?_⟩
        · intro hpos
          dsimp only
          refine ⟨by rw [if_pos hpos], ?_, ?_⟩
          · exact le_min (cco_qty_bounds hbuy (le_of_lt hpos)).1
              (cco_qty_bounds hsell (le_of_lt hpos)).1
          · exact le_trans (min_le_left _ _) (cco_qty_bounds hbuy (le_of_lt hpos)).2
        · intro h0
          dsimp only
          rw [if_neg (by rw [h0]; simp)]

/-- C5 (witness): the spec scenario — requested 10, buy leg FILLED at 10,
sell leg partially filled at 6 — records filled_quantity 6 and
fill_percent 60. -/
theorem fill_accounting_witness :
    ((⟨11, 10, 6, 60, some "B1", some "S1", true, false⟩ : TradeRecord).filledQuantity =
      min (⟨true, 10, 11⟩ : LegResult).qty (⟨false, 6, 11⟩ : LegResult).qty ∧
    (⟨11, 10, 6, 60, some "B1", some "S1", true, false⟩ : TradeRecord).quantity =
      defaultConfig.tradeAmount ∧
    (0 < defaultConfig.tradeAmount →
      (⟨11, 10, 6, 60, some "B1", some "S1", true, false⟩ : TradeRecord).filledPercent =
        (⟨11, 10, 6, 60, some "B1", some "S1", true, false⟩ : TradeRecord).filledQuantity /
          defaultConfig.tradeAmount * 100 ∧
      0 ≤ (⟨11, 10, 6, 60, some "B1", some "S1", true, false⟩ : TradeRecord).filledQuantity ∧
      (⟨11, 10, 6, 60, some "B1", some "S1", true, false⟩ : TradeRecord).filledQuantity ≤
        defaultConfig.tradeAmount) ∧
    (defaultConfig.tradeAmount = 0 →
      (⟨11, 10, 6, 60, some "B1", some "S1", true, false⟩ : TradeRecord).filledPercent = 0)) :=
  fill_accounting defaultConfig envBase ⟨true, 0⟩ 0
    (by
      intro j stc h
      injection h with h1
      subst h1
      constructor <;> norm_num [defaultConfig])
    (by
      intro j stc h
      injection h with h1
      subst h1
      constructor <;> norm_num [defaultConfig])
    ⟨11, 10, 6, 60, some "B1", some "S1", true, false⟩ (by rw [exec_base])
    ⟨true, 10, 11⟩ ⟨false, 6, 11⟩ (by rw [exec_base])

set_option maxHeartbeats 2000000 in
/-- C6. No order is left open: provided the exchange returns a non-empty
order id for every acknowledged submission, every order id opened by a cycle
either has a cancel request issued for it in the cycle's trace, or its leg
was reported FILLED at reconciliation (recorded in the cycle's legs and
saved record). Additionally, when a status query fails, reconciliation is
conservative: it still issues a cancel attempt and records zero fill. -/
theorem no_order_left_open :
    (∀ (cfg : Settings) (env : CycleEnv) (st : BotState) (rc : Nat),
      (∀ j r, env.buyOrderE j = .success r → ∃ s, r = some s ∧ s ≠ "") →
      (∀ j r, env.sellOrderE j = .success r → ∃ s, r = some s ∧ s ≠ "") →
      ∀ oid ∈ (execute_trade cfg env st rc).opened,
        Action.cancelOrder (some oid) ∈ (execute_trade cfg env st rc).trace ∨
        (∃ bl sl, (execute_trade cfg env st rc).legs = some (bl, sl) ∧
          ∃ rec, (execute_trade cfg env st rc).saved = some rec ∧
            ((rec.buyOrderId = some oid ∧ bl.filled = true) ∨
              (rec.sellOrderId = some oid ∧ sl.filled = true)))) ∧
    (∀ (maxRetries : Nat) (statusE : Nat → HttpOutcome OrderStatusResp)
        (cancelE cancel2E : Nat → HttpOutcome Unit) (oid : Option String) (rc2 : Nat),
      (handleRequest statusE maxRetries 0 rc2).response = none →
      (check_and_cancel_order maxRetries statusE cancelE cancel2E oid rc2).val =
        ⟨false, 0, 0⟩ ∧
      Action.cancelOrder oid ∈
        (check_and_cancel_order maxRetries statusE cancelE cancel2E oid rc2).trace) := by
  constructor
  · intro cfg env st rc hbuyId hsellId oid hmem
    by_cases hcb : (check_balances cfg env.balQuoteE env.balTokenE rc).val = false
    · rw [execute_trade_guard_false cfg env st rc hcb] at hmem
      simp at hmem
    · rw [Bool.not_eq_false] at hcb
      cases hbuy2 : (handleRequest env.buyOrderE cfg.maxRetries 0
          (decide_price cfg env.depthE env.u1 env.u2
            (check_balances cfg env.balQuoteE env.balTokenE rc).rc).rc).response with
      | none =>
        rw [execute_trade_buy_fail cfg env st rc hcb rfl rfl hbuy2] at hmem
        simp at hmem
      | some buyId =>
        obtain ⟨j1, hj1⟩ := handleRequest_some_inv hbuy2
        obtain ⟨sb, rfl, hsb⟩ := hbuyId j1 buyId hj1
        cases hsell2 : (handleRequest env.sellOrderE cfg.maxRetries 0
            (handleRequest env.buyOrderE cfg.maxRetries 0
              (decide_price cfg env.depthE env.u1 env.u2
                (check_balances cfg env.balQuoteE env.balTokenE rc).rc).rc).retryCount).response with
        | none =>
          rw [execute_trade_sell_fail cfg env st rc hcb rfl rfl hbuy2 rfl hsell2] at hmem ⊢
          dsimp only at hmem ⊢
          simp only [openedIds, List.mem_singleton] at hmem
          subst hmem
          left
          have htr : truthyId (some oid) = true := by
            simp [truthyId, beq_eq_false_iff_ne, hsb]
          rw [if_pos htr]
          simp [List.mem_append]
        | some sellId =>
          obtain ⟨j2, hj2⟩ := handleRequest_some_inv hsell2
          obtain ⟨ss, rfl, hss⟩ := hsellId j2 sellId hj2
          rw [execute_trade_success_eq cfg env st rc hcb rfl rfl hbuy2 rfl hsell2 rfl rfl]
            at hmem ⊢
          dsimp only at hmem ⊢
          simp only [openedIds, List.mem_append, List.mem_singleton] at hmem
          rcases hmem with rfl | rfl
          · rcases cco_filled_or_cancel cfg.maxRetries env.buyStatusE env.buyCancelE
                env.buyCancel2E (some oid)
                (handleRequest env.sellOrderE cfg.maxRetries 0
                  (handleRequest env.buyOrderE cfg.maxRetries 0
                    (decide_price cfg env.depthE env.u1 env.u2
                      (check_balances cfg env.balQuoteE env.balTokenE rc).rc).rc).retryCount).retryCount
              with hf | hcnl
            · exact Or.inr ⟨_, _, rfl, _, rfl, Or.inl ⟨rfl, hf⟩⟩
            · left
              simp only [List.mem_append, List.mem_cons]
              tauto
          · rcases cco_filled_or_cancel cfg.maxRetries env.sellStatusE env.sellCancelE
                env.sellCancel2E (some oid)
                (check_and_cancel_order cfg.maxRetries env.buyStatusE env.buyCancelE
                  env.buyCancel2E (some sb)
                  (handleRequest env.sellOrderE cfg.maxRetries 0
                    (handleRequest env.buyOrderE cfg.maxRetries 0
                      (decide_price cfg env.depthE env.u1 env.u2
                        (check_balances cfg env.balQuoteE env.balTokenE rc).rc).rc).retryCount).retryCount).rc
              with hf | hcnl
            · exact Or.inr ⟨_, _, rfl, _, rfl, Or.inr ⟨rfl, hf⟩⟩
            · left
              simp only [List.mem_append, List.mem_cons]
              tauto
  · intro maxRetries statusE cancelE cancel2E oid rc2 hs
    exact cco_status_fail maxRetries statusE cancelE cancel2E oid rc2 hs

/-- C6 (witness): in the all-success cycle the sell leg is only partially
filled, and its id S1 indeed receives a cancel request in the cycle trace;
and a reconciliation whose status query fails persistently still issues a
cancel and records zero fill. -/
theorem no_order_left_open_witness :
    (Action.cancelOrder (some "S1") ∈ (execute_trade defaultConfig envBase ⟨true, 0⟩ 0).trace ∨
      (∃ bl sl, (execute_trade defaultConfig envBase ⟨true, 0⟩ 0).legs = some (bl, sl) ∧
        ∃ rec, (execute_trade defaultConfig envBase ⟨true, 0⟩ 0).saved = some rec ∧
          ((rec.buyOrderId = some "S1" ∧ bl.filled = true) ∨
            (rec.sellOrderId = some "S1" ∧ sl.filled = true)))) ∧
    ((check_and_cancel_order 3 statusFailE cancelOkE cancelOkE (some "X") 0).val =
      ⟨false, 0, 0⟩ ∧
    Action.cancelOrder (some "X") ∈
      (check_and_cancel_order 3 statusFailE cancelOkE cancelOkE (some "X") 0).trace) :=
  ⟨no_order_left_open.1 defaultConfig envBase ⟨true, 0⟩ 0
    (by
      intro j r h
      injection h with h1
      subst h1
      exact ⟨"B1", rfl, by decide⟩)
    (by
      intro j r h
      injection h with h1
      subst h1
      exact ⟨"S1", rfl, by decide⟩)
    "S1" (by rw [exec_base]; decide),
  no_order_left_open.2 3 statusFailE cancelOkE cancelOkE (some "X") 0 hr_statusfail⟩

/-- C8 (counterexample). The worker does not suspend only at the settlement
wait and the inter-cycle sleep: when the first quote-fetch attempt hits an
HTTP 500, the gateway sleeps 2 seconds of retry backoff inside the cycle —
a third suspension site, distinct from both declared points and performed
without re-checking the running flag. -/
theorem backoff_sleep_outside_declared_points :
    Action.sleep .backoff 2 ∈ (execute_trade defaultConfig envBackoff ⟨true, 0⟩ 0).trace ∧
    Action.sleep .backoff 2 ∈
      (trading_loop defaultConfig (fun _ => envBackoff) (fun _ _ => false) (fun _ => 0)
        1 0 ⟨true, 0⟩ 0).2.2 ∧
    SleepSite.backoff ≠ SleepSite.settlement ∧
    SleepSite.backoff ≠ SleepSite.interCycleTick := by
  refine ⟨by rw [exec_backoff]; decide, ?_, by decide, by decide⟩
  rw [loop_backoff]
  decide

/-- C8 (amended). The inter-cycle wait re-checks the running flag before
every 1-second tick, so it performs at most k ticks when the k-th read is
false (stop honored within about a second of sleeping), and at most
waitTime ticks; and every sleep the worker performs is either the single
settlement sleep of CANCEL_DELAY seconds (no flag check), a 1-second
inter-cycle tick, or a gateway retry-backoff sleep inside an API call —
the backoff sleeps being additional suspension points the original claim
does not admit, and the settlement sleep being uninterruptible. -/
theorem suspension_granularity :
    (∀ (flag : Nat → Bool) (waitTime k : Nat), flag k = false →
      interCycleTicks flag waitTime ≤ k ∧ interCycleTicks flag waitTime ≤ waitTime) ∧
    (∀ (cfg : Settings) (envs : Nat → CycleEnv) (flags : Nat → Nat → Bool)
        (draws : Nat → Nat) (fuel n : Nat) (st : BotState) (rc : Nat)
        (site : SleepSite) (secs : Nat),
      Action.sleep site secs ∈ (trading_loop cfg envs flags draws fuel n st rc).2.2 →
      (site = .settlement ∧ secs = cfg.cancelDelay) ∨ site = .backoff ∨
        (site = .interCycleTick ∧ secs = 1)) := by
  constructor
  · intro flag waitTime k hk
    refine ⟨?_, ticksFrom_le flag waitTime 0⟩
    exact ticksFrom_le_of_flag_false flag waitTime 0 k (by rw [Nat.zero_add]; exact hk)
  · intro cfg envs flags draws fuel n st rc site secs h
    exact trading_loop_sleep_sites cfg envs flags draws fuel n st rc site secs h

/-- C8 (witness): a wait of 10 ticks whose flag reads false from the third
read stops after at most 2 ticks; and the settlement sleep observed in a
concrete worker trace is classified as the 1-second settlement site. -/
theorem suspension_granularity_witness :
    (interCycleTicks (fun i => decide (i < 2)) 10 ≤ 2 ∧
      interCycleTicks (fun i => decide (i < 2)) 10 ≤ 10) ∧
    ((SleepSite.settlement = SleepSite.settlement ∧ 1 = defaultConfig.cancelDelay) ∨
      SleepSite.settlement = SleepSite.backoff ∨
      (SleepSite.settlement = SleepSite.interCycleTick ∧ 1 = 1)) :=
  ⟨suspension_granularity.1 (fun i => decide (i < 2)) 10 2 (by decide),
    suspension_granularity.2 defaultConfig (fun _ => envBase) (fun _ _ => false) (fun _ => 0)
      1 0 ⟨true, 0⟩ 0 .settlement 1 (by rw [loop_base]; decide)⟩

/-- C9. The balance used by the floor checks is the per-asset total
free + locked, not the free amount alone: get_balances stores
free + locked for every asset of the account response (last entry winning,
as for a Python dict), and _check_balances — invoked by start() and at the
top of every cycle — passes exactly when these totals reach the configured
floors. -/
theorem balance_floor_uses_total :
    (∀ (pre post : List AssetBalance) (a : AssetBalance),
      (∀ b ∈ post, b.asset ≠ a.asset) →
      get_specific_balance (pre ++ a :: post) a.asset = a.free + a.locked) ∧
    (∀ (cfg : Settings) (acct1 acct2 : List AssetBalance) (rc : Nat),
      (check_balances cfg (fun _ => .success acct1) (fun _ => .success acct2) rc).val = true ↔
        (cfg.minUsdtBalance ≤ get_specific_balance acct1 cfg.quoteCurrency ∧
          cfg.minTokenBalance ≤ get_specific_balance acct2 cfg.tokenName)) := by
  constructor
  · intro pre post a hpost
    unfold get_specific_balance dictGet get_balances
    rw [List.map_append, List.map_cons, List.reverse_append, List.reverse_cons]
    rw [List.append_assoc]
    rw [lookup_append_of_keys_ne]
    · simp
    · intro p hp
      rw [List.mem_reverse, List.mem_map] at hp
      obtain ⟨b, hb, rfl⟩ := hp
      exact hpost b hb
  · intro cfg acct1 acct2 rc
    have h1 := handleRequest_success (fun _ => HttpOutcome.success acct1) cfg.maxRetries 0 rc acct1 rfl
    have h2 := handleRequest_success (fun _ => HttpOutcome.success acct2) cfg.maxRetries 0 0 acct2 rfl
    simp only [check_balances, h1, h2]
    split_ifs with hq ht
    · simp only [false_iff, not_and]
      intro ha
      exact absurd ha (not_le.mpr hq)
    · simp only [false_iff, not_and]
      intro _ hb
      exact absurd hb (not_le.mpr ht)
    · simp only [true_iff]
      exact ⟨not_lt.mp hq, not_lt.mp ht⟩

/-- C9 (witness): on an account holding 900 free + 100 locked USDT and
600 free + 400 locked CREPE, the guard reads 1000 for each asset and the
default floors 100/500 pass. -/
theorem balance_floor_uses_total_witness :
    get_specific_balance ([⟨"CREPE", 600, 400⟩] ++ ⟨"USDT", 900, 100⟩ :: []) "USDT" =
      900 + 100 ∧
    ((check_balances defaultConfig (fun _ => .success okAccount)
        (fun _ => .success okAccount) 0).val = true ↔
      (defaultConfig.minUsdtBalance ≤ get_specific_balance okAccount defaultConfig.quoteCurrency ∧
        defaultConfig.minTokenBalance ≤ get_specific_balance okAccount defaultConfig.tokenName)) :=
  ⟨balance_floor_uses_total.1 [⟨"CREPE", 600, 400⟩] [] ⟨"USDT", 900, 100⟩ (by simp),
    balance_floor_uses_total.2 defaultConfig okAccount okAccount 0⟩

/-- C7. Repeated control calls are no-ops: start() while Running returns
False without spawning a second worker and leaves the state unchanged;
stop() while Stopped returns False without issuing a cancel-all; and two
consecutive stop() calls from any state issue at most one cancel-all, the
second always reporting not-running — no call can fail. -/
theorem control_calls_idempotent :
    (∀ (cfg : Settings) (bq bt : Nat → HttpOutcome (List AssetBalance))
        (st : BotState) (rc : Nat), st.running = true →
      TradingBot.start cfg bq bt st rc = ⟨st, false, [], rc⟩) ∧
    (∀ (cfg : Settings) (cAE : Nat → HttpOutcome Unit) (st : BotState) (rc : Nat),
      st.running = false → TradingBot.stop cfg cAE st rc = ⟨st, false, [], rc⟩) ∧
    (∀ (cfg : Settings) (cAE1 cAE2 : Nat → HttpOutcome Unit) (st : BotState) (rc : Nat),
      (TradingBot.stop cfg cAE2 (TradingBot.stop cfg cAE1 st rc).state
        (TradingBot.stop cfg cAE1 st rc).rc).ok = false ∧
      ((TradingBot.stop cfg cAE1 st rc).trace ++
        (TradingBot.stop cfg cAE2 (TradingBot.stop cfg cAE1 st rc).state
          (TradingBot.stop cfg cAE1 st rc).rc).trace).count Action.cancelAllOrders ≤ 1) := by
  refine ⟨?_, ?_, ?_⟩
  · intro cfg bq bt st rc h
    simp [TradingBot.start, h]
  · intro cfg cAE st rc h
    simp [TradingBot.stop, h]
  · intro cfg cAE1 cAE2 st rc
    cases hst : st.running
    · simp [TradingBot.stop, hst]
    · simp [TradingBot.stop, hst, List.count_append, List.count_cons,
        count_cancelAll_backoffSleeps]

/-- C7 (witness): the three parts evaluated on the default configuration,
a running bot for start(), a stopped bot for stop(), and a double stop()
from the running state. -/
theorem control_calls_idempotent_witness :
    TradingBot.start defaultConfig envBase.balQuoteE envBase.balTokenE ⟨true, 4⟩ 0 =
      ⟨⟨true, 4⟩, false, [], 0⟩ ∧
    TradingBot.stop defaultConfig cancelFailE ⟨false, 4⟩ 0 = ⟨⟨false, 4⟩, false, [], 0⟩ ∧
    ((TradingBot.stop defaultConfig cancelFailE
        (TradingBot.stop defaultConfig cancelFailE ⟨true, 4⟩ 0).state
        (TradingBot.stop defaultConfig cancelFailE ⟨true, 4⟩ 0).rc).ok = false ∧
      ((TradingBot.stop defaultConfig cancelFailE ⟨true, 4⟩ 0).trace ++
        (TradingBot.stop defaultConfig cancelFailE
          (TradingBot.stop defaultConfig cancelFailE ⟨true, 4⟩ 0).state
          (TradingBot.stop defaultConfig cancelFailE ⟨true, 4⟩ 0).rc).trace).count
        Action.cancelAllOrders ≤ 1) :=
  ⟨control_calls_idempotent.1 defaultConfig envBase.balQuoteE envBase.balTokenE ⟨true, 4⟩ 0 rfl,
    control_calls_idempotent.2.1 defaultConfig cancelFailE ⟨false, 4⟩ 0 rfl,
    control_calls_idempotent.2.2 defaultConfig cancelFailE cancelFailE ⟨true, 4⟩ 0⟩

/-- C10. stop() called while Running always returns True and moves the
state to Stopped, for every outcome of the cancel-all request — including
a raising one, whose exception is caught and logged — and the cancel-all
attempt is always issued. -/
theorem stop_succeeds_despite_cancel_failure (cfg : Settings)
    (cAE : Nat → HttpOutcome Unit) (st : BotState) (rc : Nat)
    (h : st.running = true) :
    (TradingBot.stop cfg cAE st rc).ok = true ∧
    (TradingBot.stop cfg cAE st rc).state.running = false ∧
    (TradingBot.stop cfg cAE st rc).state.tradeCount = st.tradeCount ∧
    Action.cancelAllOrders ∈ (TradingBot.stop cfg cAE st rc).trace := by
  simp [TradingBot.stop, h]

/-- C10 (witness): stopping a running bot whose cancel-all dies on
transport errors (the request raises after exhausting its retries) still
reports success and lands in the Stopped state. -/
theorem stop_succeeds_despite_cancel_failure_witness :
    (TradingBot.stop defaultConfig cancelFailE ⟨true, 7⟩ 0).ok = true ∧
    (TradingBot.stop defaultConfig cancelFailE ⟨true, 7⟩ 0).state.running = false ∧
    (TradingBot.stop defaultConfig cancelFailE ⟨true, 7⟩ 0).state.tradeCount =
      (⟨true, 7⟩ : BotState).tradeCount ∧
    Action.cancelAllOrders ∈ (TradingBot.stop defaultConfig cancelFailE ⟨true, 7⟩ 0).trace :=
  stop_succeeds_despite_cancel_failure defaultConfig cancelFailE ⟨true, 7⟩ 0 rfl

end VolumeBot
